import Mathlib

set_option maxRecDepth 65536

/-!
# Verification of the remiru JTAG/PDI debug transport

This development gives a shallow embedding of the remiru debug transport
stack and proves properties of it:

* `src/remiru/debug/pdi/controller.py` — the PDI command engine
  (transport FSM + instruction FSM + register file), embedded as the
  step function `step` on `PDIState`.
* `src/remiru/debug/pdi/interface.py` — the clock-domain-crossing
  request/response interface, embedded as `ifaceStep` / `ifaceRespond`
  on its JTAG-domain registers `IfaceState`.
* `src/remiru/debug/jtag.py` — the IEEE 1149.1 TAP state machine,
  embedded as the transition function `tapNext`.
* `src/remiru/cdc.py` — the `PulseSynchroniser` toggle/resample scheme,
  embedded over an arbitrary monotone sampling map between the two
  clock domains.

Machine integers are modelled as `Nat` with explicit truncation
(`% 2^w`) exactly where the source signal width forces it.  A 9-bit PDI
frame `dataIn` is represented by its two source-visible fields:
`dataIn[0:8]` (the data byte) and `dataIn[8]` (the parity bit).
-/

/-- Even parity over the 8 low bits of a byte; embeds `dataIn[0:8].xor()`
(controller.py line 39) and `pdiDataOut.xor()` (interface.py line 66). -/
def parity8 (b : Nat) : Bool :=
  Bool.xor (b.testBit 0) (Bool.xor (b.testBit 1) (Bool.xor (b.testBit 2)
    (Bool.xor (b.testBit 3) (Bool.xor (b.testBit 4) (Bool.xor (b.testBit 5)
      (Bool.xor (b.testBit 6) (b.testBit 7)))))))

/-! ## PDI opcodes (controller.py `PDIOpcodes`) -/

def PDIOpcodes.LDS : Nat := 0
def PDIOpcodes.LD : Nat := 1
def PDIOpcodes.STS : Nat := 2
def PDIOpcodes.ST : Nat := 3
def PDIOpcodes.LDCS : Nat := 4
def PDIOpcodes.REPEAT : Nat := 5
def PDIOpcodes.STCS : Nat := 6
def PDIOpcodes.KEY : Nat := 7
def PDIOpcodes.IDLE : Nat := 0xf

/-- States of the transport FSM (`pdiFSM` in controller.py). -/
inductive PdiFsm where
  | RESET
  | IDLE
  | PARITY_CHECK
  | DISPATCH_BYTE
  | DECODE_INSN
  | HANDLE_READ
  | HANDLE_WRITE
  | UPDATE_STATE
deriving DecidableEq, Repr

/-- States of the instruction FSM (`insnFSM` in controller.py). -/
inductive InsnFsm where
  | IDLE
  | DECODE
  | HANDLE_REPEAT
  | CAPTURE_REPEAT
  | UPDATE_REPEAT
deriving DecidableEq, Repr

/-- The registered (clock-domain `sync`) state of `PDIController`.
Field widths follow the `Signal` declarations in controller.py:
`data` 8 bits, `opcode`/`args`/`readCount`/`writeCount` 4 bits,
`repCount`/`repeatData` 32 bits, plus the one-bit flags and the
five-entry register file `pdiRegs`. -/
structure PDIState where
  pdi : PdiFsm
  insn : InsnFsm
  data : Nat
  opcode : Nat
  args : Nat
  readCount : Nat
  writeCount : Nat
  repCount : Nat
  repeatData : Nat
  busy : Bool
  parityError : Bool
  done : Bool
  dataOut : Nat
  newCommand : Bool
  updateWasOngoing : Bool
  regs : List Nat
deriving DecidableEq, Repr

/-- The controller's inputs for one `sync`-domain clock cycle.
`dataInData`/`dataInParity` are `dataIn[0:8]` and `dataIn[8]`. -/
structure PDIInput where
  dataInData : Nat
  dataInParity : Bool
  nextReady : Bool
  doneAck : Bool
deriving DecidableEq, Repr

/-- `sizeA = args[2:4] + 1`, a 3-bit signal (controller.py line 172). -/
def sizeA (args : Nat) : Nat := (args / 4 % 4 + 1) % 8

/-- `sizeB = args[0:2] + 1`, a 3-bit signal (controller.py line 173). -/
def sizeB (args : Nat) : Nat := (args % 4 + 1) % 8

/-- Result of the instruction FSM's DECODE state: the new values of
`readCount`, `writeCount`, `repCount` and the next `insnFSM` state. -/
structure DecodeResult where
  readCount : Nat
  writeCount : Nat
  repCount : Nat
  next : InsnFsm
deriving DecidableEq, Repr

/-- The DECODE state of `insnFSM` (controller.py lines 189-262): per-opcode
derivation of the read/write byte counters.  Fields that a case does not
assign keep their old value; an opcode outside the `Switch` cases assigns
nothing and stays in DECODE. -/
def decodeCounts (opcode args readCount writeCount repCount : Nat) : DecodeResult :=
  if opcode = PDIOpcodes.IDLE then
    ⟨readCount, writeCount, 0, InsnFsm.IDLE⟩
  else if opcode = PDIOpcodes.LDS then
    ⟨sizeA args, sizeB args, repCount, InsnFsm.HANDLE_REPEAT⟩
  else if opcode = PDIOpcodes.LD then
    ⟨0, sizeB args, repCount, InsnFsm.HANDLE_REPEAT⟩
  else if opcode = PDIOpcodes.STS then
    ⟨(sizeA args + sizeB args) % 16, 0, repCount, InsnFsm.HANDLE_REPEAT⟩
  else if opcode = PDIOpcodes.ST then
    ⟨sizeB args, 0, repCount, InsnFsm.HANDLE_REPEAT⟩
  else if opcode = PDIOpcodes.LDCS then
    ⟨0, 1, repCount, InsnFsm.HANDLE_REPEAT⟩
  else if opcode = PDIOpcodes.STCS then
    ⟨1, 0, repCount, InsnFsm.HANDLE_REPEAT⟩
  else if opcode = PDIOpcodes.REPEAT then
    ⟨sizeB args, 0, repCount, InsnFsm.CAPTURE_REPEAT⟩
  else if opcode = PDIOpcodes.KEY then
    ⟨8, 0, 0, InsnFsm.IDLE⟩
  else
    ⟨readCount, writeCount, repCount, InsnFsm.DECODE⟩

/-- The UPDATE-REPEAT state of `insnFSM` (controller.py lines 278-291):
reassemble the accumulated `repeatData` bytes into the repeat counter,
switching on `args[0:2]`.  `Cat` places its first argument in the low
bits, so e.g. case 1 is `Cat(repeatData[8:16], repeatData[0:8])`. -/
def assembleRepeat (args repeatData : Nat) : Nat :=
  match args % 4 with
  | 0 => repeatData % 256
  | 1 => repeatData / 256 % 256 + 256 * (repeatData % 256)
  | 2 => repeatData / 65536 % 256 + 256 * (repeatData / 256 % 256) +
      65536 * (repeatData % 256)
  | _ => repeatData / 16777216 % 256 + 256 * (repeatData / 65536 % 256) +
      65536 * (repeatData / 256 % 256) + 16777216 * (repeatData % 256)

/-- Read port of the register file `pdiRegs` (controller.py lines 28-34,
read at line 298 as `pdiRegs[args]`).  The file holds five 8-bit
registers; an index beyond the file yields no register. -/
def pdiRegsRead (regs : List Nat) (i : Nat) : Option Nat := regs.get? i

/-- One `sync`-domain clock cycle of `PDIController.elaborate`.  All
right-hand sides read the pre-cycle state (registered signals) or the
current-cycle combinational signals, which are inlined here:

* `handleRead`/`handleWrite`: `pdiFSM` is in HANDLE-READ / HANDLE-WRITE;
* `writeComplete`: asserted by the dispatch switch for LDCS during
  HANDLE-WRITE (lines 296-299);
* `updateRepeat`: asserted in HANDLE-READ when the opcode is REPEAT;
* `updateCounts`: asserted in DECODE-INSN, and in UPDATE-STATE when both
  counters are exhausted and the repeat counter is nonzero;
* `updateComplete`: `insnFSM` idle while `updateWasOngoing` is set.

Where the same signal is driven by both FSM processes, the instruction
FSM appears later in `elaborate` and takes priority; the two never
drive the same signal on the same cycle in the runs proved below. -/
def step (s : PDIState) (i : PDIInput) : PDIState :=
  let dc := decodeCounts s.opcode s.args s.readCount s.writeCount s.repCount
  { pdi :=
      if s.pdi = PdiFsm.RESET then PdiFsm.IDLE
      else if s.pdi = PdiFsm.IDLE then
        (if i.nextReady = true then PdiFsm.PARITY_CHECK else PdiFsm.IDLE)
      else if s.pdi = PdiFsm.PARITY_CHECK then PdiFsm.DISPATCH_BYTE
      else if s.pdi = PdiFsm.DISPATCH_BYTE then
        (if s.parityError = true then PdiFsm.IDLE
         else if s.opcode = PDIOpcodes.IDLE then PdiFsm.DECODE_INSN
         else if s.readCount ≠ 0 then PdiFsm.HANDLE_READ
         else PdiFsm.HANDLE_WRITE)
      else if s.pdi = PdiFsm.DECODE_INSN then PdiFsm.IDLE
      else if s.pdi = PdiFsm.HANDLE_READ then PdiFsm.UPDATE_STATE
      else if s.pdi = PdiFsm.HANDLE_WRITE then
        (if s.opcode = PDIOpcodes.LDCS then PdiFsm.UPDATE_STATE
         else PdiFsm.HANDLE_WRITE)
      else PdiFsm.IDLE
    insn :=
      if s.insn = InsnFsm.IDLE then
        (if s.pdi = PdiFsm.DECODE_INSN ∨
            (s.pdi = PdiFsm.UPDATE_STATE ∧ s.writeCount = 0 ∧
              s.readCount = 0 ∧ s.repCount ≠ 0) then
          InsnFsm.DECODE
         else InsnFsm.IDLE)
      else if s.insn = InsnFsm.DECODE then dc.next
      else if s.insn = InsnFsm.HANDLE_REPEAT then InsnFsm.IDLE
      else if s.insn = InsnFsm.CAPTURE_REPEAT then
        (if s.pdi = PdiFsm.HANDLE_READ ∧ s.opcode = PDIOpcodes.REPEAT ∧
            s.readCount = 1 then
          InsnFsm.UPDATE_REPEAT
         else InsnFsm.CAPTURE_REPEAT)
      else InsnFsm.IDLE
    data :=
      if s.pdi = PdiFsm.DISPATCH_BYTE ∧ s.parityError = false then
        i.dataInData % 256
      else s.data
    opcode :=
      if s.pdi = PdiFsm.RESET then PDIOpcodes.IDLE
      else if s.pdi = PdiFsm.DECODE_INSN then s.data / 32 % 8
      else if s.pdi = PdiFsm.UPDATE_STATE ∧ s.writeCount = 0 ∧
          s.readCount = 0 ∧ s.repCount = 0 then PDIOpcodes.IDLE
      else s.opcode
    args := if s.pdi = PdiFsm.DECODE_INSN then s.data % 16 else s.args
    readCount :=
      if s.insn = InsnFsm.DECODE then dc.readCount
      else if s.pdi = PdiFsm.RESET then 0
      else if s.pdi = PdiFsm.HANDLE_READ then (s.readCount + 15) % 16
      else s.readCount
    writeCount :=
      if s.insn = InsnFsm.DECODE then dc.writeCount
      else if s.pdi = PdiFsm.RESET then 0
      else if s.pdi = PdiFsm.HANDLE_WRITE ∧ s.opcode = PDIOpcodes.LDCS then
        (s.writeCount + 15) % 16
      else s.writeCount
    repCount :=
      if s.insn = InsnFsm.DECODE then dc.repCount
      else if s.insn = InsnFsm.HANDLE_REPEAT then
        (if s.repCount ≠ 0 ∧ s.newCommand = false then
          (s.repCount + (2 ^ 32 - 1)) % 2 ^ 32
         else s.repCount)
      else if s.insn = InsnFsm.UPDATE_REPEAT then
        assembleRepeat s.args s.repeatData
      else if s.pdi = PdiFsm.RESET then 0
      else s.repCount
    repeatData :=
      if s.insn = InsnFsm.CAPTURE_REPEAT ∧ s.pdi = PdiFsm.HANDLE_READ ∧
          s.opcode = PDIOpcodes.REPEAT then
        s.data % 256 + 256 * (s.repeatData % 16777216)
      else s.repeatData
    busy :=
      if s.pdi = PdiFsm.RESET then false
      else if s.pdi = PdiFsm.IDLE ∧ s.insn = InsnFsm.IDLE ∧
          s.updateWasOngoing = true then false
      else if s.pdi = PdiFsm.PARITY_CHECK then true
      else if s.pdi = PdiFsm.DISPATCH_BYTE ∧ s.parityError = true then false
      else if s.pdi = PdiFsm.UPDATE_STATE then
        (if s.writeCount = 0 ∧ s.readCount = 0 then
          (if s.repCount ≠ 0 then s.busy else false)
         else false)
      else s.busy
    parityError :=
      if s.pdi = PdiFsm.RESET then false
      else if s.pdi = PdiFsm.PARITY_CHECK then
        parity8 (i.dataInData % 256) != i.dataInParity
      else s.parityError
    done :=
      if i.doneAck = true then false
      else if s.pdi = PdiFsm.HANDLE_WRITE ∧ s.opcode = PDIOpcodes.LDCS then true
      else s.done
    dataOut :=
      if s.opcode = PDIOpcodes.LDCS ∧ s.pdi = PdiFsm.HANDLE_WRITE then
        (pdiRegsRead s.regs s.args).getD 0
      else s.dataOut
    newCommand :=
      if s.pdi = PdiFsm.DECODE_INSN then true
      else if s.pdi = PdiFsm.UPDATE_STATE ∧ s.writeCount = 0 ∧
          s.readCount = 0 ∧ s.repCount ≠ 0 then false
      else s.newCommand
    updateWasOngoing := if s.insn = InsnFsm.IDLE then false else true
    regs :=
      if s.opcode = PDIOpcodes.STCS ∧ s.pdi = PdiFsm.HANDLE_READ then
        s.regs.set s.args s.data
      else s.regs }

/-- Constant input held on the controller's ports for one cycle: the
frame `(b, pb)` sits on `dataIn` and `nextReady` is `nr`. -/
def holdInput (b : Nat) (pb : Bool) (nr : Bool) : PDIInput :=
  ⟨b, pb, nr, false⟩

/-- Deliver one frame to the controller: pulse `nextReady` for a cycle
with the frame on `dataIn`, then hold the frame quietly for seven more
cycles so both FSMs settle back to their idle states. -/
def processFrame (s : PDIState) (f : Nat × Bool) : PDIState :=
  let i0 := holdInput f.1 f.2 true
  let iq := holdInput f.1 f.2 false
  step (step (step (step (step (step (step (step s i0) iq) iq) iq) iq) iq) iq) iq

/-- Deliver a list of frames in order. -/
def processFrames (s : PDIState) : List (Nat × Bool) → PDIState
  | [] => s
  | f :: fs => processFrames (processFrame s f) fs

/-- A frame carrying byte `b` with the correct even parity bit. -/
def goodFrame (b : Nat) : Nat × Bool := (b, parity8 b)

/-- Deliver `n` all-zero correctly-framed bytes. -/
def feedZeros : Nat → PDIState → PDIState
  | 0, s => s
  | n + 1, s => feedZeros n (processFrame s (goodFrame 0))

/-- Power-on register values: every signal resets to 0 and both FSMs
start in their first-declared state (`RESET` for `pdiFSM`, `IDLE` for
`insnFSM`). -/
def powerOnState : PDIState :=
  ⟨PdiFsm.RESET, InsnFsm.IDLE, 0, 0, 0, 0, 0, 0, 0,
    false, false, false, 0, false, false, [0, 0, 0, 0, 0]⟩

/-- The controller's state one cycle after power-on: the RESET state's
quick-reset has set `opcode` to the IDLE sentinel and cleared the
counters and flags. -/
def resetState : PDIState :=
  ⟨PdiFsm.IDLE, InsnFsm.IDLE, 0, PDIOpcodes.IDLE, 0, 0, 0, 0, 0,
    false, false, false, 0, false, false, [0, 0, 0, 0, 0]⟩

/-! ## PDI interface (interface.py), JTAG clock domain -/

def PDI_BREAK_BYTE : Nat := 0x1bb
def PDI_DELAY_BYTE : Nat := 0x1db
def PDI_EMPTY_BYTE : Nat := 0x1eb

/-- `pdiResponse` (interface.py lines 62-66): the outbound data byte in
bits 0-7 with its recomputed even parity in bit 8. -/
def mkPdiResponse (d : Nat) : Nat :=
  d % 256 + 256 * (if parity8 (d % 256) then 1 else 0)

/-- JTAG-domain registers of `PDIInterface.elaborate`. -/
structure IfaceState where
  useRequest : Bool
  busy : Bool
  awaitingReg : Bool
deriving DecidableEq, Repr

/-- JTAG-domain inputs of the interface for one cycle.
`awaitingResponse`, `parityError` and `haveResponse` are the
`FFSynchronizer` shadows of `pdiBusy`, `pdiParityError` and `pdiDone`;
`jtagResponse` is the synchronized shadow of `pdiResponse`. -/
structure IfaceInput where
  needsResponse : Bool
  hasRequest : Bool
  awaitingResponse : Bool
  parityError : Bool
  haveResponse : Bool
  jtagResponse : Nat
deriving DecidableEq, Repr

/-- The combinational `nextReady` (interface.py line 105):
`useRequest & jtagHasRequest`. -/
def ifaceNextReady (s : IfaceState) (i : IfaceInput) : Bool :=
  s.useRequest && i.hasRequest

/-- One JTAG-domain clock cycle of the interface's registers
(interface.py lines 76-82 and 89-90). -/
def ifaceStep (s : IfaceState) (i : IfaceInput) : IfaceState :=
  { useRequest :=
      if i.needsResponse = true then !i.awaitingResponse else s.useRequest
    busy :=
      if ifaceNextReady s i = true then true
      else if i.haveResponse || (s.awaitingReg && !i.awaitingResponse) then false
      else s.busy
    awaitingReg := i.awaitingResponse }

/-- The combinational response selection (interface.py lines 89-101):
returns `(jtagDataOut, responseAck)`.  An unassigned combinational
signal reads as 0. -/
def ifaceRespond (s : IfaceState) (i : IfaceInput) : Nat × Bool :=
  if i.needsResponse = true then
    if i.parityError = true then (PDI_BREAK_BYTE, false)
    else if s.busy = true then (PDI_DELAY_BYTE, false)
    else if i.haveResponse = true then (i.jtagResponse, true)
    else (PDI_EMPTY_BYTE, false)
  else (0, false)

/-! ## JTAG TAP controller (jtag.py `tapFSM`) -/

/-- The sixteen IEEE 1149.1 TAP states (jtag.py lines 78-167). -/
inductive TapState where
  | RESET
  | IDLE
  | SELECT_DR
  | CAPTURE_DR
  | SHIFT_DR
  | EXIT1_DR
  | PAUSE_DR
  | EXIT2_DR
  | UPDATE_DR
  | SELECT_IR
  | CAPTURE_IR
  | SHIFT_IR
  | EXIT1_IR
  | PAUSE_IR
  | EXIT2_IR
  | UPDATE_IR
deriving DecidableEq, Repr

/-- The TAP transition function: a pure function of the current state
and the mode-select input `tms`, transcribed from the `tapFSM` state
blocks of jtag.py. -/
def tapNext (s : TapState) (tms : Bool) : TapState :=
  match s with
  | TapState.RESET => if tms then TapState.RESET else TapState.IDLE
  | TapState.IDLE => if tms then TapState.SELECT_DR else TapState.IDLE
  | TapState.SELECT_DR => if tms then TapState.SELECT_IR else TapState.CAPTURE_DR
  | TapState.CAPTURE_DR => if tms then TapState.EXIT1_DR else TapState.SHIFT_DR
  | TapState.SHIFT_DR => if tms then TapState.EXIT1_DR else TapState.SHIFT_DR
  | TapState.EXIT1_DR => if tms then TapState.UPDATE_DR else TapState.PAUSE_DR
  | TapState.PAUSE_DR => if tms then TapState.EXIT2_DR else TapState.PAUSE_DR
  | TapState.EXIT2_DR => if tms then TapState.UPDATE_DR else TapState.SHIFT_DR
  | TapState.UPDATE_DR => if tms then TapState.SELECT_DR else TapState.IDLE
  | TapState.SELECT_IR => if tms then TapState.RESET else TapState.CAPTURE_IR
  | TapState.CAPTURE_IR => if tms then TapState.EXIT1_IR else TapState.SHIFT_IR
  | TapState.SHIFT_IR => if tms then TapState.EXIT1_IR else TapState.SHIFT_IR
  | TapState.EXIT1_IR => if tms then TapState.UPDATE_IR else TapState.PAUSE_IR
  | TapState.PAUSE_IR => if tms then TapState.EXIT2_IR else TapState.PAUSE_IR
  | TapState.EXIT2_IR => if tms then TapState.UPDATE_IR else TapState.SHIFT_IR
  | TapState.UPDATE_IR => if tms then TapState.SELECT_DR else TapState.IDLE

/-- Hold `tms` asserted for `n` consecutive clock ticks. -/
def tapHold (s : TapState) : Nat → TapState
  | 0 => s
  | n + 1 => tapHold (tapNext s true) n

/-! ## PulseSynchroniser (cdc.py)

The input domain keeps a toggle register that flips on every input
pulse; the toggle crosses into the output domain through a
`stages`-deep synchronizer, and consecutive output-domain samples are
XORed to regenerate a pulse per toggle edge.  The relative timing of
the two free-running clocks is abstracted by a monotone sampling map
`σ`: output-domain tick `j` observes the input-domain toggle as of
input tick `σ j`. -/

/-- Number of input pulses strictly before input tick `n`. -/
def cntPulses (p : Nat → Bool) : Nat → Nat
  | 0 => 0
  | n + 1 => cntPulses p n + (if p n then 1 else 0)

/-- `toggleInReg` (cdc.py lines 56-57): flips on every input pulse. -/
def toggleSeq (p : Nat → Bool) : Nat → Bool
  | 0 => false
  | n + 1 => Bool.xor (toggleSeq p n) (p n)

/-- `toggleOut`: the input-domain toggle as seen in the output domain
after the `stages`-deep synchronizer, i.e. the value sampled `stages`
output ticks earlier (a flop chain starts out holding 0). -/
def syncToggle (stages : Nat) (σ : Nat → Nat) (p : Nat → Bool) (j : Nat) : Bool :=
  if j < stages then false else toggleSeq p (σ (j - stages))

/-- `o = toggleOut ^ toggleOutReg` (cdc.py lines 60-61): a pulse on
every edge of the synchronized toggle. -/
def outPulse (stages : Nat) (σ : Nat → Nat) (p : Nat → Bool) : Nat → Bool
  | 0 => syncToggle stages σ p 0
  | j + 1 => Bool.xor (syncToggle stages σ p (j + 1)) (syncToggle stages σ p j)

/-- Number of output pulses strictly before output tick `n`. -/
def cntOut (stages : Nat) (σ : Nat → Nat) (p : Nat → Bool) : Nat → Nat
  | 0 => 0
  | n + 1 => cntOut stages σ p n + (if outPulse stages σ p n then 1 else 0)

/-! ## Helper states and lemmas for the REPEAT execution count -/

/-- The controller parked between payload bytes of an STCS command
issued right after a completed `REPEAT 0x01 0x02`: opcode STCS with
register index 0, one byte left to read, repeat counter `m`, and the
`repeatData` shift buffer still holding `0x0102` from the REPEAT
payload. -/
def stcsLoopState (m : Nat) (nc : Bool) (d : Nat) : PDIState :=
  ⟨PdiFsm.IDLE, InsnFsm.IDLE, d, PDIOpcodes.STCS, 0, 1, 0, m, 0x0102,
    false, false, false, 0, nc, false, [0, 0, 0, 0, 0]⟩

/-- The controller after the STCS command's final execution: the opcode
is back at the IDLE sentinel and the counters are exhausted. -/
def stcsDoneState (nc : Bool) : PDIState :=
  ⟨PdiFsm.IDLE, InsnFsm.IDLE, 0, PDIOpcodes.IDLE, 0, 0, 0, 0, 0x0102,
    false, false, false, 0, nc, false, [0, 0, 0, 0, 0]⟩

/-- One more payload byte while the repeat counter is nonzero: the byte
is consumed, the instruction FSM re-arms the STCS counters and
decrements the repeat counter by one. -/
theorem processFrame_loop (m : Nat) (nc : Bool) (d : Nat) (hm : m < 2 ^ 32) :
    processFrame (stcsLoopState (m + 1) nc d) (goodFrame 0) =
      stcsLoopState m false 0 := by
  have hrep : (m + 1 + (2 ^ 32 - 1)) % 2 ^ 32 = m := by omega
  have h1 : step (stcsLoopState (m + 1) nc d) (holdInput 0 (parity8 0) true) =
      ⟨PdiFsm.PARITY_CHECK, InsnFsm.IDLE, d, 6, 0, 1, 0, m + 1, 258,
        false, false, false, 0, nc, false, [0, 0, 0, 0, 0]⟩ := by
    simp [step, holdInput, stcsLoopState, decodeCounts, PDIOpcodes.STCS,
      PDIOpcodes.IDLE, PDIOpcodes.LDCS, PDIOpcodes.REPEAT]
  have h2 : step ⟨PdiFsm.PARITY_CHECK, InsnFsm.IDLE, d, 6, 0, 1, 0, m + 1, 258,
        false, false, false, 0, nc, false, [0, 0, 0, 0, 0]⟩
      (holdInput 0 (parity8 0) false) =
      ⟨PdiFsm.DISPATCH_BYTE, InsnFsm.IDLE, d, 6, 0, 1, 0, m + 1, 258,
        true, false, false, 0, nc, false, [0, 0, 0, 0, 0]⟩ := by
    simp [step, holdInput, decodeCounts, PDIOpcodes.STCS, PDIOpcodes.IDLE,
      PDIOpcodes.LDCS, PDIOpcodes.REPEAT]
  have h3 : step ⟨PdiFsm.DISPATCH_BYTE, InsnFsm.IDLE, d, 6, 0, 1, 0, m + 1, 258,
        true, false, false, 0, nc, false, [0, 0, 0, 0, 0]⟩
      (holdInput 0 (parity8 0) false) =
      ⟨PdiFsm.HANDLE_READ, InsnFsm.IDLE, 0, 6, 0, 1, 0, m + 1, 258,
        true, false, false, 0, nc, false, [0, 0, 0, 0, 0]⟩ := by
    simp [step, holdInput, decodeCounts, PDIOpcodes.STCS, PDIOpcodes.IDLE,
      PDIOpcodes.LDCS, PDIOpcodes.REPEAT]
  have h4 : step ⟨PdiFsm.HANDLE_READ, InsnFsm.IDLE, 0, 6, 0, 1, 0, m + 1, 258,
        true, false, false, 0, nc, false, [0, 0, 0, 0, 0]⟩
      (holdInput 0 (parity8 0) false) =
      ⟨PdiFsm.UPDATE_STATE, InsnFsm.IDLE, 0, 6, 0, 0, 0, m + 1, 258,
        true, false, false, 0, nc, false, [0, 0, 0, 0, 0]⟩ := by
    simp [step, holdInput, decodeCounts, PDIOpcodes.STCS, PDIOpcodes.IDLE,
      PDIOpcodes.LDCS, PDIOpcodes.REPEAT]
  have h5 : step ⟨PdiFsm.UPDATE_STATE, InsnFsm.IDLE, 0, 6, 0, 0, 0, m + 1, 258,
        true, false, false, 0, nc, false, [0, 0, 0, 0, 0]⟩
      (holdInput 0 (parity8 0) false) =
      ⟨PdiFsm.IDLE, InsnFsm.DECODE, 0, 6, 0, 0, 0, m + 1, 258,
        true, false, false, 0, false, false, [0, 0, 0, 0, 0]⟩ := by
    simp [step, holdInput, decodeCounts, PDIOpcodes.STCS, PDIOpcodes.IDLE,
      PDIOpcodes.LDCS, PDIOpcodes.REPEAT]
  have h6 : step ⟨PdiFsm.IDLE, InsnFsm.DECODE, 0, 6, 0, 0, 0, m + 1, 258,
        true, false, false, 0, false, false, [0, 0, 0, 0, 0]⟩
      (holdInput 0 (parity8 0) false) =
      ⟨PdiFsm.IDLE, InsnFsm.HANDLE_REPEAT, 0, 6, 0, 1, 0, m + 1, 258,
        true, false, false, 0, false, true, [0, 0, 0, 0, 0]⟩ := by
    simp [step, holdInput, decodeCounts, PDIOpcodes.LDS, PDIOpcodes.LD,
      PDIOpcodes.STS, PDIOpcodes.ST, PDIOpcodes.STCS, PDIOpcodes.IDLE,
      PDIOpcodes.LDCS, PDIOpcodes.REPEAT, PDIOpcodes.KEY]
  have h7 : step ⟨PdiFsm.IDLE, InsnFsm.HANDLE_REPEAT, 0, 6, 0, 1, 0, m + 1, 258,
        true, false, false, 0, false, true, [0, 0, 0, 0, 0]⟩
      (holdInput 0 (parity8 0) false) =
      ⟨PdiFsm.IDLE, InsnFsm.IDLE, 0, 6, 0, 1, 0, m, 258,
        true, false, false, 0, false, true, [0, 0, 0, 0, 0]⟩ := by
    simp [step, holdInput, decodeCounts, PDIOpcodes.STCS, PDIOpcodes.IDLE,
      PDIOpcodes.LDCS, PDIOpcodes.REPEAT]
    omega
  have h8 : step ⟨PdiFsm.IDLE, InsnFsm.IDLE, 0, 6, 0, 1, 0, m, 258,
        true, false, false, 0, false, true, [0, 0, 0, 0, 0]⟩
      (holdInput 0 (parity8 0) false) =
      stcsLoopState m false 0 := by
    simp [step, holdInput, stcsLoopState, decodeCounts, PDIOpcodes.STCS,
      PDIOpcodes.IDLE, PDIOpcodes.LDCS, PDIOpcodes.REPEAT]
  show step (step (step (step (step (step (step (step
      (stcsLoopState (m + 1) nc d) (holdInput 0 (parity8 0) true))
      (holdInput 0 (parity8 0) false)) (holdInput 0 (parity8 0) false))
      (holdInput 0 (parity8 0) false)) (holdInput 0 (parity8 0) false))
      (holdInput 0 (parity8 0) false)) (holdInput 0 (parity8 0) false))
      (holdInput 0 (parity8 0) false) = stcsLoopState m false 0
  rw [h1, h2, h3, h4, h5, h6, h7, h8]

/-- The final payload byte, with the repeat counter exhausted: the byte
is consumed and UPDATE-STATE returns the opcode to the IDLE sentinel. -/
theorem processFrame_loopEnd (nc : Bool) (d : Nat) :
    processFrame (stcsLoopState 0 nc d) (goodFrame 0) = stcsDoneState nc := by
  have h1 : step (stcsLoopState 0 nc d) (holdInput 0 (parity8 0) true) =
      ⟨PdiFsm.PARITY_CHECK, InsnFsm.IDLE, d, 6, 0, 1, 0, 0, 258,
        false, false, false, 0, nc, false, [0, 0, 0, 0, 0]⟩ := by
    simp [step, holdInput, stcsLoopState, decodeCounts, PDIOpcodes.STCS,
      PDIOpcodes.IDLE, PDIOpcodes.LDCS, PDIOpcodes.REPEAT]
  have h2 : step ⟨PdiFsm.PARITY_CHECK, InsnFsm.IDLE, d, 6, 0, 1, 0, 0, 258,
        false, false, false, 0, nc, false, [0, 0, 0, 0, 0]⟩
      (holdInput 0 (parity8 0) false) =
      ⟨PdiFsm.DISPATCH_BYTE, InsnFsm.IDLE, d, 6, 0, 1, 0, 0, 258,
        true, false, false, 0, nc, false, [0, 0, 0, 0, 0]⟩ := by
    simp [step, holdInput, decodeCounts, PDIOpcodes.STCS, PDIOpcodes.IDLE,
      PDIOpcodes.LDCS, PDIOpcodes.REPEAT]
  have h3 : step ⟨PdiFsm.DISPATCH_BYTE, InsnFsm.IDLE, d, 6, 0, 1, 0, 0, 258,
        true, false, false, 0, nc, false, [0, 0, 0, 0, 0]⟩
      (holdInput 0 (parity8 0) false) =
      ⟨PdiFsm.HANDLE_READ, InsnFsm.IDLE, 0, 6, 0, 1, 0, 0, 258,
        true, false, false, 0, nc, false, [0, 0, 0, 0, 0]⟩ := by
    simp [step, holdInput, decodeCounts, PDIOpcodes.STCS, PDIOpcodes.IDLE,
      PDIOpcodes.LDCS, PDIOpcodes.REPEAT]
  have h4 : step ⟨PdiFsm.HANDLE_READ, InsnFsm.IDLE, 0, 6, 0, 1, 0, 0, 258,
        true, false, false, 0, nc, false, [0, 0, 0, 0, 0]⟩
      (holdInput 0 (parity8 0) false) =
      ⟨PdiFsm.UPDATE_STATE, InsnFsm.IDLE, 0, 6, 0, 0, 0, 0, 258,
        true, false, false, 0, nc, false, [0, 0, 0, 0, 0]⟩ := by
    simp [step, holdInput, decodeCounts, PDIOpcodes.STCS, PDIOpcodes.IDLE,
      PDIOpcodes.LDCS, PDIOpcodes.REPEAT]
  have h5 : step ⟨PdiFsm.UPDATE_STATE, InsnFsm.IDLE, 0, 6, 0, 0, 0, 0, 258,
        true, false, false, 0, nc, false, [0, 0, 0, 0, 0]⟩
      (holdInput 0 (parity8 0) false) = stcsDoneState nc := by
    simp [step, holdInput, stcsDoneState, decodeCounts, PDIOpcodes.STCS,
      PDIOpcodes.IDLE, PDIOpcodes.LDCS, PDIOpcodes.REPEAT]
  have h6 : step (stcsDoneState nc) (holdInput 0 (parity8 0) false) =
      stcsDoneState nc := by
    simp [step, holdInput, stcsDoneState, decodeCounts, PDIOpcodes.STCS,
      PDIOpcodes.IDLE, PDIOpcodes.LDCS, PDIOpcodes.REPEAT]
  show step (step (step (step (step (step (step (step
      (stcsLoopState 0 nc d) (holdInput 0 (parity8 0) true))
      (holdInput 0 (parity8 0) false)) (holdInput 0 (parity8 0) false))
      (holdInput 0 (parity8 0) false)) (holdInput 0 (parity8 0) false))
      (holdInput 0 (parity8 0) false)) (holdInput 0 (parity8 0) false))
      (holdInput 0 (parity8 0) false) = stcsDoneState nc
  rw [h1, h2, h3, h4, h5, h6, h6, h6]

/-- Feeding `j + 1 ≤ m` payload bytes from repeat counter `m` leaves
the STCS command in flight with repeat counter `m - (j + 1)`. -/
theorem feedZeros_loop (j : Nat) :
    ∀ m nc d, j + 1 ≤ m → m < 2 ^ 32 →
      feedZeros (j + 1) (stcsLoopState m nc d) =
        stcsLoopState (m - (j + 1)) false 0 := by
  induction j with
  | zero =>
    intro m nc d hj hm
    match m, hj with
    | m' + 1, _ =>
      show feedZeros 0 (processFrame (stcsLoopState (m' + 1) nc d) (goodFrame 0)) = _
      rw [show feedZeros 0 = id from rfl]
      simp [processFrame_loop m' nc d (by omega)]
  | succ j ih =>
    intro m nc d hj hm
    match m, hj with
    | m' + 1, _ =>
      show feedZeros (j + 1) (processFrame (stcsLoopState (m' + 1) nc d) (goodFrame 0)) = _
      rw [processFrame_loop m' nc d (by omega)]
      rw [ih m' false 0 (by omega) (by omega)]
      congr 1
      omega

/-- Feeding bytes one more time commutes to the tail. -/
theorem feedZeros_succ_right (n : Nat) :
    ∀ s, feedZeros (n + 1) s = processFrame (feedZeros n s) (goodFrame 0) := by
  induction n with
  | zero => intro s; rfl
  | succ n ih =>
    intro s
    show feedZeros (n + 1) (processFrame s (goodFrame 0)) = _
    rw [ih]
    rfl

/-! ## Claim theorems -/

/-- The REPEAT command of Claim C1: opcode byte `0xa1`
(opcode REPEAT, sizeB = 2) followed by payload bytes `0x01` then
`0x02`, each with correct even parity. -/
def c1Frames : List (Nat × Bool) :=
  [goodFrame 0xa1, goodFrame 0x01, goodFrame 0x02]

/-- Claim C1, counterexample: after `REPEAT` with sizeB = 2 and payload
bytes `0x01` then `0x02`, the controller's repeat counter is `0x0201`,
not the `0x0102` the claim states — the first received byte lands in
the low-order byte of the final count. -/
theorem c1_counterexample :
    (processFrames resetState c1Frames).repCount = 0x0201 ∧
      (processFrames resetState c1Frames).repCount ≠ 0x0102 := by
  decide

/-- The controller part-way through a REPEAT command with argument
field `a`: the instruction FSM sits in CAPTURE-REPEAT with `rc` payload
bytes still to read and the shift buffer holding `rd`. -/
def repeatCaptureState (a rc d rd : Nat) (busy : Bool) : PDIState :=
  ⟨PdiFsm.IDLE, InsnFsm.CAPTURE_REPEAT, d, 5, a, rc, 0, 0, rd,
    busy, false, false, 0, true, true, [0, 0, 0, 0, 0]⟩

/-- The controller after a completed REPEAT command: the opcode is back
at the IDLE sentinel and the repeat counter holds `rep`. -/
def repeatLoadedState (a rep rd b : Nat) : PDIState :=
  ⟨PdiFsm.IDLE, InsnFsm.IDLE, b, 15, a, 0, 0, rep, rd,
    false, false, false, 0, true, false, [0, 0, 0, 0, 0]⟩

/-- Decoding a REPEAT opcode byte with argument field `a` from the idle controller: the instruction FSM enters CAPTURE-REPEAT expecting sizeB payload bytes. -/
theorem repeatDecode (a : Nat) (ha : a < 16) :
    processFrame resetState (goodFrame (160 + a)) = (repeatCaptureState a (a % 4 + 1) (160 + a) 0 true) := by
  have hm1 : (160 + a) % 256 = 160 + a := by omega
  have hm2 : (160 + a) / 32 % 8 = 5 := by omega
  have hm3 : (160 + a) % 16 = a := by omega
  have hsz : (a % 4 + 1) % 8 = a % 4 + 1 := by omega
  have h1 : step resetState (holdInput (160 + a) (parity8 (160 + a)) true) =
      ⟨PdiFsm.PARITY_CHECK, InsnFsm.IDLE, 0, 15, 0, 0, 0, 0, 0, false, false, false, 0, false, false, [0, 0, 0, 0, 0]⟩ := by
    simp [step, holdInput, decodeCounts, sizeA, sizeB, PDIOpcodes.LDS, PDIOpcodes.LD, PDIOpcodes.STS, PDIOpcodes.ST, PDIOpcodes.LDCS, PDIOpcodes.REPEAT, PDIOpcodes.STCS, PDIOpcodes.KEY, PDIOpcodes.IDLE, pdiRegsRead, resetState, repeatCaptureState, hm1, hm2, hm3, hsz]
  have h2 : step ⟨PdiFsm.PARITY_CHECK, InsnFsm.IDLE, 0, 15, 0, 0, 0, 0, 0, false, false, false, 0, false, false, [0, 0, 0, 0, 0]⟩ (holdInput (160 + a) (parity8 (160 + a)) false) =
      ⟨PdiFsm.DISPATCH_BYTE, InsnFsm.IDLE, 0, 15, 0, 0, 0, 0, 0, true, false, false, 0, false, false, [0, 0, 0, 0, 0]⟩ := by
    simp [step, holdInput, decodeCounts, sizeA, sizeB, PDIOpcodes.LDS, PDIOpcodes.LD, PDIOpcodes.STS, PDIOpcodes.ST, PDIOpcodes.LDCS, PDIOpcodes.REPEAT, PDIOpcodes.STCS, PDIOpcodes.KEY, PDIOpcodes.IDLE, pdiRegsRead, resetState, repeatCaptureState, hm1, hm2, hm3, hsz]
  have h3 : step ⟨PdiFsm.DISPATCH_BYTE, InsnFsm.IDLE, 0, 15, 0, 0, 0, 0, 0, true, false, false, 0, false, false, [0, 0, 0, 0, 0]⟩ (holdInput (160 + a) (parity8 (160 + a)) false) =
      ⟨PdiFsm.DECODE_INSN, InsnFsm.IDLE, 160 + a, 15, 0, 0, 0, 0, 0, true, false, false, 0, false, false, [0, 0, 0, 0, 0]⟩ := by
    simp [step, holdInput, decodeCounts, sizeA, sizeB, PDIOpcodes.LDS, PDIOpcodes.LD, PDIOpcodes.STS, PDIOpcodes.ST, PDIOpcodes.LDCS, PDIOpcodes.REPEAT, PDIOpcodes.STCS, PDIOpcodes.KEY, PDIOpcodes.IDLE, pdiRegsRead, resetState, repeatCaptureState, hm1, hm2, hm3, hsz]
  have h4 : step ⟨PdiFsm.DECODE_INSN, InsnFsm.IDLE, 160 + a, 15, 0, 0, 0, 0, 0, true, false, false, 0, false, false, [0, 0, 0, 0, 0]⟩ (holdInput (160 + a) (parity8 (160 + a)) false) =
      ⟨PdiFsm.IDLE, InsnFsm.DECODE, 160 + a, 5, a, 0, 0, 0, 0, true, false, false, 0, true, false, [0, 0, 0, 0, 0]⟩ := by
    simp [step, holdInput, decodeCounts, sizeA, sizeB, PDIOpcodes.LDS, PDIOpcodes.LD, PDIOpcodes.STS, PDIOpcodes.ST, PDIOpcodes.LDCS, PDIOpcodes.REPEAT, PDIOpcodes.STCS, PDIOpcodes.KEY, PDIOpcodes.IDLE, pdiRegsRead, resetState, repeatCaptureState, hm1, hm2, hm3, hsz]
  have h5 : step ⟨PdiFsm.IDLE, InsnFsm.DECODE, 160 + a, 5, a, 0, 0, 0, 0, true, false, false, 0, true, false, [0, 0, 0, 0, 0]⟩ (holdInput (160 + a) (parity8 (160 + a)) false) =
      (repeatCaptureState a (a % 4 + 1) (160 + a) 0 true) := by
    simp [step, holdInput, decodeCounts, sizeA, sizeB, PDIOpcodes.LDS, PDIOpcodes.LD, PDIOpcodes.STS, PDIOpcodes.ST, PDIOpcodes.LDCS, PDIOpcodes.REPEAT, PDIOpcodes.STCS, PDIOpcodes.KEY, PDIOpcodes.IDLE, pdiRegsRead, resetState, repeatCaptureState, hm1, hm2, hm3, hsz]
  have hstab : step (repeatCaptureState a (a % 4 + 1) (160 + a) 0 true) (holdInput (160 + a) (parity8 (160 + a)) false) =
      (repeatCaptureState a (a % 4 + 1) (160 + a) 0 true) := by
    simp [step, holdInput, decodeCounts, sizeA, sizeB, PDIOpcodes.LDS, PDIOpcodes.LD, PDIOpcodes.STS, PDIOpcodes.ST, PDIOpcodes.LDCS, PDIOpcodes.REPEAT, PDIOpcodes.STCS, PDIOpcodes.KEY, PDIOpcodes.IDLE, pdiRegsRead, resetState, repeatCaptureState, hm1, hm2, hm3, hsz]
  show step (step (step (step (step (step (step (step resetState (holdInput (160 + a) (parity8 (160 + a)) true)) (holdInput (160 + a) (parity8 (160 + a)) false)) (holdInput (160 + a) (parity8 (160 + a)) false)) (holdInput (160 + a) (parity8 (160 + a)) false)) (holdInput (160 + a) (parity8 (160 + a)) false)) (holdInput (160 + a) (parity8 (160 + a)) false)) (holdInput (160 + a) (parity8 (160 + a)) false)) (holdInput (160 + a) (parity8 (160 + a)) false) = (repeatCaptureState a (a % 4 + 1) (160 + a) 0 true)
  rw [h1, h2, h3, h4, h5, hstab, hstab, hstab]

/-- A non-final REPEAT payload byte: the byte is shifted into the bottom of the `repeatData` buffer and the read counter decremented. -/
theorem repeatPayload (a rc d rd : Nat) (busy0 : Bool) (b : Nat) (h2 : 2 ≤ rc) (h16 : rc < 16) (hb : b < 256) :
    processFrame (repeatCaptureState a rc d rd busy0) (goodFrame (b)) = (repeatCaptureState a (rc - 1) b (b + 256 * (rd % 16777216)) false) := by
  have hbm : b % 256 = b := by omega
  have hne0 : ¬(rc = 0) := by omega
  have hne1 : ¬(rc = 1) := by omega
  have hdec : (rc + 15) % 16 = rc - 1 := by omega
  have hne0s : ¬(rc - 1 = 0) := by omega
  have h1 : step (repeatCaptureState a rc d rd busy0) (holdInput (b) (parity8 (b)) true) =
      ⟨PdiFsm.PARITY_CHECK, InsnFsm.CAPTURE_REPEAT, d, 5, a, rc, 0, 0, rd, busy0, false, false, 0, true, true, [0, 0, 0, 0, 0]⟩ := by
    simp [step, holdInput, decodeCounts, sizeA, sizeB, PDIOpcodes.LDS, PDIOpcodes.LD, PDIOpcodes.STS, PDIOpcodes.ST, PDIOpcodes.LDCS, PDIOpcodes.REPEAT, PDIOpcodes.STCS, PDIOpcodes.KEY, PDIOpcodes.IDLE, pdiRegsRead, repeatCaptureState, hbm, hne0, hne1, hdec, hne0s]
  have h2 : step ⟨PdiFsm.PARITY_CHECK, InsnFsm.CAPTURE_REPEAT, d, 5, a, rc, 0, 0, rd, busy0, false, false, 0, true, true, [0, 0, 0, 0, 0]⟩ (holdInput (b) (parity8 (b)) false) =
      ⟨PdiFsm.DISPATCH_BYTE, InsnFsm.CAPTURE_REPEAT, d, 5, a, rc, 0, 0, rd, true, false, false, 0, true, true, [0, 0, 0, 0, 0]⟩ := by
    simp [step, holdInput, decodeCounts, sizeA, sizeB, PDIOpcodes.LDS, PDIOpcodes.LD, PDIOpcodes.STS, PDIOpcodes.ST, PDIOpcodes.LDCS, PDIOpcodes.REPEAT, PDIOpcodes.STCS, PDIOpcodes.KEY, PDIOpcodes.IDLE, pdiRegsRead, repeatCaptureState, hbm, hne0, hne1, hdec, hne0s]
  have h3 : step ⟨PdiFsm.DISPATCH_BYTE, InsnFsm.CAPTURE_REPEAT, d, 5, a, rc, 0, 0, rd, true, false, false, 0, true, true, [0, 0, 0, 0, 0]⟩ (holdInput (b) (parity8 (b)) false) =
      ⟨PdiFsm.HANDLE_READ, InsnFsm.CAPTURE_REPEAT, b, 5, a, rc, 0, 0, rd, true, false, false, 0, true, true, [0, 0, 0, 0, 0]⟩ := by
    simp [step, holdInput, decodeCounts, sizeA, sizeB, PDIOpcodes.LDS, PDIOpcodes.LD, PDIOpcodes.STS, PDIOpcodes.ST, PDIOpcodes.LDCS, PDIOpcodes.REPEAT, PDIOpcodes.STCS, PDIOpcodes.KEY, PDIOpcodes.IDLE, pdiRegsRead, repeatCaptureState, hbm, hne0, hne1, hdec, hne0s]
  have h4 : step ⟨PdiFsm.HANDLE_READ, InsnFsm.CAPTURE_REPEAT, b, 5, a, rc, 0, 0, rd, true, false, false, 0, true, true, [0, 0, 0, 0, 0]⟩ (holdInput (b) (parity8 (b)) false) =
      ⟨PdiFsm.UPDATE_STATE, InsnFsm.CAPTURE_REPEAT, b, 5, a, rc - 1, 0, 0, b + 256 * (rd % 16777216), true, false, false, 0, true, true, [0, 0, 0, 0, 0]⟩ := by
    simp [step, holdInput, decodeCounts, sizeA, sizeB, PDIOpcodes.LDS, PDIOpcodes.LD, PDIOpcodes.STS, PDIOpcodes.ST, PDIOpcodes.LDCS, PDIOpcodes.REPEAT, PDIOpcodes.STCS, PDIOpcodes.KEY, PDIOpcodes.IDLE, pdiRegsRead, repeatCaptureState, hbm, hne0, hne1, hdec, hne0s]
  have h5 : step ⟨PdiFsm.UPDATE_STATE, InsnFsm.CAPTURE_REPEAT, b, 5, a, rc - 1, 0, 0, b + 256 * (rd % 16777216), true, false, false, 0, true, true, [0, 0, 0, 0, 0]⟩ (holdInput (b) (parity8 (b)) false) =
      (repeatCaptureState a (rc - 1) b (b + 256 * (rd % 16777216)) false) := by
    simp [step, holdInput, decodeCounts, sizeA, sizeB, PDIOpcodes.LDS, PDIOpcodes.LD, PDIOpcodes.STS, PDIOpcodes.ST, PDIOpcodes.LDCS, PDIOpcodes.REPEAT, PDIOpcodes.STCS, PDIOpcodes.KEY, PDIOpcodes.IDLE, pdiRegsRead, repeatCaptureState, hbm, hne0, hne1, hdec, hne0s]
  have hstab : step (repeatCaptureState a (rc - 1) b (b + 256 * (rd % 16777216)) false) (holdInput (b) (parity8 (b)) false) =
      (repeatCaptureState a (rc - 1) b (b + 256 * (rd % 16777216)) false) := by
    simp [step, holdInput, decodeCounts, sizeA, sizeB, PDIOpcodes.LDS, PDIOpcodes.LD, PDIOpcodes.STS, PDIOpcodes.ST, PDIOpcodes.LDCS, PDIOpcodes.REPEAT, PDIOpcodes.STCS, PDIOpcodes.KEY, PDIOpcodes.IDLE, pdiRegsRead, repeatCaptureState, hbm, hne0, hne1, hdec, hne0s]
  show step (step (step (step (step (step (step (step (repeatCaptureState a rc d rd busy0) (holdInput (b) (parity8 (b)) true)) (holdInput (b) (parity8 (b)) false)) (holdInput (b) (parity8 (b)) false)) (holdInput (b) (parity8 (b)) false)) (holdInput (b) (parity8 (b)) false)) (holdInput (b) (parity8 (b)) false)) (holdInput (b) (parity8 (b)) false)) (holdInput (b) (parity8 (b)) false) = (repeatCaptureState a (rc - 1) b (b + 256 * (rd % 16777216)) false)
  rw [h1, h2, h3, h4, h5, hstab, hstab, hstab]

/-- The final REPEAT payload byte: the byte is shifted in, UPDATE-REPEAT reassembles the buffered bytes into the repeat counter, and the opcode returns to the IDLE sentinel. -/
theorem repeatFinal (a d rd : Nat) (busy0 : Bool) (b : Nat) (hb : b < 256) :
    processFrame (repeatCaptureState a 1 d rd busy0) (goodFrame (b)) = (repeatLoadedState a (assembleRepeat a (b + 256 * (rd % 16777216))) (b + 256 * (rd % 16777216)) b) := by
  have hbm : b % 256 = b := by omega
  have h1 : step (repeatCaptureState a 1 d rd busy0) (holdInput (b) (parity8 (b)) true) =
      ⟨PdiFsm.PARITY_CHECK, InsnFsm.CAPTURE_REPEAT, d, 5, a, 1, 0, 0, rd, busy0, false, false, 0, true, true, [0, 0, 0, 0, 0]⟩ := by
    simp [step, holdInput, decodeCounts, sizeA, sizeB, PDIOpcodes.LDS, PDIOpcodes.LD, PDIOpcodes.STS, PDIOpcodes.ST, PDIOpcodes.LDCS, PDIOpcodes.REPEAT, PDIOpcodes.STCS, PDIOpcodes.KEY, PDIOpcodes.IDLE, pdiRegsRead, repeatCaptureState, repeatLoadedState, hbm]
  have h2 : step ⟨PdiFsm.PARITY_CHECK, InsnFsm.CAPTURE_REPEAT, d, 5, a, 1, 0, 0, rd, busy0, false, false, 0, true, true, [0, 0, 0, 0, 0]⟩ (holdInput (b) (parity8 (b)) false) =
      ⟨PdiFsm.DISPATCH_BYTE, InsnFsm.CAPTURE_REPEAT, d, 5, a, 1, 0, 0, rd, true, false, false, 0, true, true, [0, 0, 0, 0, 0]⟩ := by
    simp [step, holdInput, decodeCounts, sizeA, sizeB, PDIOpcodes.LDS, PDIOpcodes.LD, PDIOpcodes.STS, PDIOpcodes.ST, PDIOpcodes.LDCS, PDIOpcodes.REPEAT, PDIOpcodes.STCS, PDIOpcodes.KEY, PDIOpcodes.IDLE, pdiRegsRead, repeatCaptureState, repeatLoadedState, hbm]
  have h3 : step ⟨PdiFsm.DISPATCH_BYTE, InsnFsm.CAPTURE_REPEAT, d, 5, a, 1, 0, 0, rd, true, false, false, 0, true, true, [0, 0, 0, 0, 0]⟩ (holdInput (b) (parity8 (b)) false) =
      ⟨PdiFsm.HANDLE_READ, InsnFsm.CAPTURE_REPEAT, b, 5, a, 1, 0, 0, rd, true, false, false, 0, true, true, [0, 0, 0, 0, 0]⟩ := by
    simp [step, holdInput, decodeCounts, sizeA, sizeB, PDIOpcodes.LDS, PDIOpcodes.LD, PDIOpcodes.STS, PDIOpcodes.ST, PDIOpcodes.LDCS, PDIOpcodes.REPEAT, PDIOpcodes.STCS, PDIOpcodes.KEY, PDIOpcodes.IDLE, pdiRegsRead, repeatCaptureState, repeatLoadedState, hbm]
  have h4 : step ⟨PdiFsm.HANDLE_READ, InsnFsm.CAPTURE_REPEAT, b, 5, a, 1, 0, 0, rd, true, false, false, 0, true, true, [0, 0, 0, 0, 0]⟩ (holdInput (b) (parity8 (b)) false) =
      ⟨PdiFsm.UPDATE_STATE, InsnFsm.UPDATE_REPEAT, b, 5, a, 0, 0, 0, b + 256 * (rd % 16777216), true, false, false, 0, true, true, [0, 0, 0, 0, 0]⟩ := by
    simp [step, holdInput, decodeCounts, sizeA, sizeB, PDIOpcodes.LDS, PDIOpcodes.LD, PDIOpcodes.STS, PDIOpcodes.ST, PDIOpcodes.LDCS, PDIOpcodes.REPEAT, PDIOpcodes.STCS, PDIOpcodes.KEY, PDIOpcodes.IDLE, pdiRegsRead, repeatCaptureState, repeatLoadedState, hbm]
  have h5 : step ⟨PdiFsm.UPDATE_STATE, InsnFsm.UPDATE_REPEAT, b, 5, a, 0, 0, 0, b + 256 * (rd % 16777216), true, false, false, 0, true, true, [0, 0, 0, 0, 0]⟩ (holdInput (b) (parity8 (b)) false) =
      ⟨PdiFsm.IDLE, InsnFsm.IDLE, b, 15, a, 0, 0, assembleRepeat a (b + 256 * (rd % 16777216)), b + 256 * (rd % 16777216), false, false, false, 0, true, true, [0, 0, 0, 0, 0]⟩ := by
    simp [step, holdInput, decodeCounts, sizeA, sizeB, PDIOpcodes.LDS, PDIOpcodes.LD, PDIOpcodes.STS, PDIOpcodes.ST, PDIOpcodes.LDCS, PDIOpcodes.REPEAT, PDIOpcodes.STCS, PDIOpcodes.KEY, PDIOpcodes.IDLE, pdiRegsRead, repeatCaptureState, repeatLoadedState, hbm]
  have h6 : step ⟨PdiFsm.IDLE, InsnFsm.IDLE, b, 15, a, 0, 0, assembleRepeat a (b + 256 * (rd % 16777216)), b + 256 * (rd % 16777216), false, false, false, 0, true, true, [0, 0, 0, 0, 0]⟩ (holdInput (b) (parity8 (b)) false) =
      (repeatLoadedState a (assembleRepeat a (b + 256 * (rd % 16777216))) (b + 256 * (rd % 16777216)) b) := by
    simp [step, holdInput, decodeCounts, sizeA, sizeB, PDIOpcodes.LDS, PDIOpcodes.LD, PDIOpcodes.STS, PDIOpcodes.ST, PDIOpcodes.LDCS, PDIOpcodes.REPEAT, PDIOpcodes.STCS, PDIOpcodes.KEY, PDIOpcodes.IDLE, pdiRegsRead, repeatCaptureState, repeatLoadedState, hbm]
  have hstab : step (repeatLoadedState a (assembleRepeat a (b + 256 * (rd % 16777216))) (b + 256 * (rd % 16777216)) b) (holdInput (b) (parity8 (b)) false) =
      (repeatLoadedState a (assembleRepeat a (b + 256 * (rd % 16777216))) (b + 256 * (rd % 16777216)) b) := by
    simp [step, holdInput, decodeCounts, sizeA, sizeB, PDIOpcodes.LDS, PDIOpcodes.LD, PDIOpcodes.STS, PDIOpcodes.ST, PDIOpcodes.LDCS, PDIOpcodes.REPEAT, PDIOpcodes.STCS, PDIOpcodes.KEY, PDIOpcodes.IDLE, pdiRegsRead, repeatCaptureState, repeatLoadedState, hbm]
  show step (step (step (step (step (step (step (step (repeatCaptureState a 1 d rd busy0) (holdInput (b) (parity8 (b)) true)) (holdInput (b) (parity8 (b)) false)) (holdInput (b) (parity8 (b)) false)) (holdInput (b) (parity8 (b)) false)) (holdInput (b) (parity8 (b)) false)) (holdInput (b) (parity8 (b)) false)) (holdInput (b) (parity8 (b)) false)) (holdInput (b) (parity8 (b)) false) = (repeatLoadedState a (assembleRepeat a (b + 256 * (rd % 16777216))) (b + 256 * (rd % 16777216)) b)
  rw [h1, h2, h3, h4, h5, h6, hstab, hstab]

/-- Claim C1 (amended): for every REPEAT command — any 4-bit argument
field, hence any sizeB in 1..4 — and arbitrary correctly-framed payload
bytes, the repeat counter is assembled in received order =
least-significant byte first: the first byte received becomes the
lowest-order byte of the final count.  In particular REPEAT with
sizeB = 2 and payload `0x01` then `0x02` yields repeat counter
`0x0201`, and the immediately following command (here an STCS, one
payload byte per execution) then executes exactly `1 + 0x0201` times
before the opcode returns to IDLE: after each of the first `0x0201`
payload bytes the command is still in flight, and the `0x0201 + 1`-th
payload byte returns the opcode to the IDLE sentinel. -/
theorem c1_repeat_count_lsb_first :
    (∀ a, a < 16 → a % 4 = 0 → ∀ b1, b1 < 256 →
      (processFrames resetState
        [goodFrame (160 + a), goodFrame b1]).repCount = b1) ∧
    (∀ a, a < 16 → a % 4 = 1 → ∀ b1 b2, b1 < 256 → b2 < 256 →
      (processFrames resetState
        [goodFrame (160 + a), goodFrame b1, goodFrame b2]).repCount =
        b1 + 256 * b2) ∧
    (∀ a, a < 16 → a % 4 = 2 →
      ∀ b1 b2 b3, b1 < 256 → b2 < 256 → b3 < 256 →
      (processFrames resetState
        [goodFrame (160 + a), goodFrame b1, goodFrame b2,
          goodFrame b3]).repCount = b1 + 256 * b2 + 65536 * b3) ∧
    (∀ a, a < 16 → a % 4 = 3 →
      ∀ b1 b2 b3 b4, b1 < 256 → b2 < 256 → b3 < 256 → b4 < 256 →
      (processFrames resetState
        [goodFrame (160 + a), goodFrame b1, goodFrame b2, goodFrame b3,
          goodFrame b4]).repCount =
        b1 + 256 * b2 + 65536 * b3 + 16777216 * b4) ∧
    (processFrames resetState c1Frames).repCount = 0x0201 ∧
    (∀ j, j ≤ 0x0201 →
      (feedZeros j (processFrames resetState
        (c1Frames ++ [goodFrame 0xc0]))).opcode = PDIOpcodes.STCS) ∧
    (feedZeros (0x0201 + 1)
        (processFrames resetState (c1Frames ++ [goodFrame 0xc0]))).opcode =
      PDIOpcodes.IDLE := by
  have hstart : processFrames resetState (c1Frames ++ [goodFrame 0xc0]) =
      stcsLoopState 0x0201 true 0xc0 := by decide
  refine ⟨?_, ?_, ?_, ?_, by decide, ?_, ?_⟩
  · intro a ha hmod b1 hb1
    have hd : processFrame resetState (goodFrame (160 + a)) =
        repeatCaptureState a 1 (160 + a) 0 true := by
      rw [repeatDecode a ha, hmod]
    show (processFrame (processFrame resetState (goodFrame (160 + a)))
      (goodFrame b1)).repCount = b1
    rw [hd, repeatFinal a (160 + a) 0 true b1 hb1]
    show assembleRepeat a b1 = b1
    simp [assembleRepeat, hmod]
    omega
  · intro a ha hmod b1 b2 hb1 hb2
    have hd : processFrame resetState (goodFrame (160 + a)) =
        repeatCaptureState a 2 (160 + a) 0 true := by
      rw [repeatDecode a ha, hmod]
    show (processFrame (processFrame (processFrame resetState
      (goodFrame (160 + a))) (goodFrame b1)) (goodFrame b2)).repCount =
      b1 + 256 * b2
    rw [hd, repeatPayload a 2 (160 + a) 0 true b1 (by omega) (by omega) hb1]
    show (processFrame (repeatCaptureState a 1 b1 b1 false)
      (goodFrame b2)).repCount = b1 + 256 * b2
    rw [repeatFinal a b1 b1 false b2 hb2]
    show assembleRepeat a (b2 + 256 * (b1 % 16777216)) = b1 + 256 * b2
    rw [show b1 % 16777216 = b1 from by omega]
    simp [assembleRepeat, hmod]
    omega
  · intro a ha hmod b1 b2 b3 hb1 hb2 hb3
    have hd : processFrame resetState (goodFrame (160 + a)) =
        repeatCaptureState a 3 (160 + a) 0 true := by
      rw [repeatDecode a ha, hmod]
    show (processFrame (processFrame (processFrame (processFrame resetState
      (goodFrame (160 + a))) (goodFrame b1)) (goodFrame b2))
      (goodFrame b3)).repCount = b1 + 256 * b2 + 65536 * b3
    rw [hd, repeatPayload a 3 (160 + a) 0 true b1 (by omega) (by omega) hb1]
    show (processFrame (processFrame (repeatCaptureState a 2 b1 b1 false)
      (goodFrame b2)) (goodFrame b3)).repCount = b1 + 256 * b2 + 65536 * b3
    rw [repeatPayload a 2 b1 b1 false b2 (by omega) (by omega) hb2]
    rw [show b1 % 16777216 = b1 from by omega]
    show (processFrame (repeatCaptureState a 1 b2 (b2 + 256 * b1) false)
      (goodFrame b3)).repCount = b1 + 256 * b2 + 65536 * b3
    rw [repeatFinal a b2 (b2 + 256 * b1) false b3 hb3]
    show assembleRepeat a (b3 + 256 * ((b2 + 256 * b1) % 16777216)) =
      b1 + 256 * b2 + 65536 * b3
    rw [show (b2 + 256 * b1) % 16777216 = b2 + 256 * b1 from by omega]
    simp [assembleRepeat, hmod]
    omega
  · intro a ha hmod b1 b2 b3 b4 hb1 hb2 hb3 hb4
    have hd : processFrame resetState (goodFrame (160 + a)) =
        repeatCaptureState a 4 (160 + a) 0 true := by
      rw [repeatDecode a ha, hmod]
    show (processFrame (processFrame (processFrame (processFrame
      (processFrame resetState (goodFrame (160 + a))) (goodFrame b1))
      (goodFrame b2)) (goodFrame b3)) (goodFrame b4)).repCount =
      b1 + 256 * b2 + 65536 * b3 + 16777216 * b4
    rw [hd, repeatPayload a 4 (160 + a) 0 true b1 (by omega) (by omega) hb1]
    show (processFrame (processFrame (processFrame
      (repeatCaptureState a 3 b1 b1 false) (goodFrame b2)) (goodFrame b3))
      (goodFrame b4)).repCount = b1 + 256 * b2 + 65536 * b3 + 16777216 * b4
    rw [repeatPayload a 3 b1 b1 false b2 (by omega) (by omega) hb2]
    rw [show b1 % 16777216 = b1 from by omega]
    show (processFrame (processFrame
      (repeatCaptureState a 2 b2 (b2 + 256 * b1) false) (goodFrame b3))
      (goodFrame b4)).repCount = b1 + 256 * b2 + 65536 * b3 + 16777216 * b4
    rw [repeatPayload a 2 b2 (b2 + 256 * b1) false b3 (by omega) (by omega) hb3]
    rw [show (b2 + 256 * b1) % 16777216 = b2 + 256 * b1 from by omega]
    show (processFrame
      (repeatCaptureState a 1 b3 (b3 + 256 * (b2 + 256 * b1)) false)
      (goodFrame b4)).repCount = b1 + 256 * b2 + 65536 * b3 + 16777216 * b4
    rw [repeatFinal a b3 (b3 + 256 * (b2 + 256 * b1)) false b4 hb4]
    show assembleRepeat a
        (b4 + 256 * ((b3 + 256 * (b2 + 256 * b1)) % 16777216)) =
      b1 + 256 * b2 + 65536 * b3 + 16777216 * b4
    rw [show (b3 + 256 * (b2 + 256 * b1)) % 16777216 =
      b3 + 256 * (b2 + 256 * b1) from by omega]
    simp [assembleRepeat, hmod]
    omega
  · intro j hj
    rw [hstart]
    match j, hj with
    | 0, _ => rfl
    | k + 1, hj =>
      rw [feedZeros_loop k 0x0201 true 0xc0 (by omega) (by decide)]
      rfl
  · rw [hstart, feedZeros_succ_right,
      feedZeros_loop 0x0200 0x0201 true 0xc0 (by omega) (by decide)]
    rw [show (0x0201 : Nat) - (0x0200 + 1) = 0 from rfl]
    rw [processFrame_loopEnd]
    rfl

/-- Claim C1 witness: the general theorem applied at argument field 1
(sizeB = 2) with payload bytes 1 then 2. -/
theorem c1_repeat_count_lsb_first_witness :
    (processFrames resetState
      [goodFrame (160 + 1), goodFrame 1, goodFrame 2]).repCount =
      1 + 256 * 2 :=
  c1_repeat_count_lsb_first.2.1 1 (by decide) (by decide) 1 2
    (by decide) (by decide)

/-- Claim C2: for every argument field (hence every sizeA, sizeB in
1..4), the instruction FSM's DECODE state derives readCount/writeCount
exactly per the table: LDS loads sizeA/sizeB, LD 0/sizeB, STS
(sizeA+sizeB)/0, ST sizeB/0, LDCS 0/1, STCS 1/0, REPEAT sizeB/0, KEY
8/0 clearing the repeat counter, and the IDLE sentinel clears the
repeat counter leaving both counters untouched; sizeA and sizeB always
lie in 1..4, covering the boundary combinations. -/
theorem c2_decode_counter_table :
    ∀ a, a < 16 → ∀ rc wc rep,
      decodeCounts PDIOpcodes.LDS a rc wc rep =
        ⟨sizeA a, sizeB a, rep, InsnFsm.HANDLE_REPEAT⟩ ∧
      decodeCounts PDIOpcodes.LD a rc wc rep =
        ⟨0, sizeB a, rep, InsnFsm.HANDLE_REPEAT⟩ ∧
      decodeCounts PDIOpcodes.STS a rc wc rep =
        ⟨sizeA a + sizeB a, 0, rep, InsnFsm.HANDLE_REPEAT⟩ ∧
      decodeCounts PDIOpcodes.ST a rc wc rep =
        ⟨sizeB a, 0, rep, InsnFsm.HANDLE_REPEAT⟩ ∧
      decodeCounts PDIOpcodes.LDCS a rc wc rep =
        ⟨0, 1, rep, InsnFsm.HANDLE_REPEAT⟩ ∧
      decodeCounts PDIOpcodes.STCS a rc wc rep =
        ⟨1, 0, rep, InsnFsm.HANDLE_REPEAT⟩ ∧
      decodeCounts PDIOpcodes.REPEAT a rc wc rep =
        ⟨sizeB a, 0, rep, InsnFsm.CAPTURE_REPEAT⟩ ∧
      decodeCounts PDIOpcodes.KEY a rc wc rep =
        ⟨8, 0, 0, InsnFsm.IDLE⟩ ∧
      decodeCounts PDIOpcodes.IDLE a rc wc rep =
        ⟨rc, wc, 0, InsnFsm.IDLE⟩ ∧
      1 ≤ sizeA a ∧ sizeA a ≤ 4 ∧ 1 ≤ sizeB a ∧ sizeB a ≤ 4 := by
  intro a ha rc wc rep
  interval_cases a <;>
    exact ⟨rfl, rfl, rfl, rfl, rfl, rfl, rfl, rfl, rfl,
      by decide, by decide, by decide, by decide⟩

/-- Claim C2 witness: the table at the boundary argument field 0
(sizeA = sizeB = 1). -/
theorem c2_decode_counter_table_witness :
    decodeCounts PDIOpcodes.LDS 0 0 0 0 =
      ⟨sizeA 0, sizeB 0, 0, InsnFsm.HANDLE_REPEAT⟩ :=
  (c2_decode_counter_table 0 (by decide) 0 0 0).1

/-- Claim C5: the three 9-bit response constants BREAK `0x1bb`, DELAY
`0x1db` and EMPTY `0x1eb` are mutually distinct, and no parity-correct
frame — a data byte in bits 0-7 with its even parity in bit 8, as
`pdiResponse` builds it — ever equals any of them. -/
theorem c5_sentinels_distinct_from_frames :
    PDI_BREAK_BYTE ≠ PDI_DELAY_BYTE ∧ PDI_BREAK_BYTE ≠ PDI_EMPTY_BYTE ∧
      PDI_DELAY_BYTE ≠ PDI_EMPTY_BYTE ∧
      ∀ d, d < 256 → mkPdiResponse d ≠ PDI_BREAK_BYTE ∧
        mkPdiResponse d ≠ PDI_DELAY_BYTE ∧ mkPdiResponse d ≠ PDI_EMPTY_BYTE := by
  decide

/-- Claim C5 witness: the sentinel data bytes themselves, framed with
correct parity, differ from the sentinels. -/
theorem c5_sentinels_distinct_from_frames_witness :
    mkPdiResponse 0xbb ≠ PDI_BREAK_BYTE ∧ mkPdiResponse 0xbb ≠ PDI_DELAY_BYTE ∧
      mkPdiResponse 0xbb ≠ PDI_EMPTY_BYTE :=
  c5_sentinels_distinct_from_frames.2.2.2 0xbb (by decide)

/-- Claim C8: from any of the sixteen TAP states, holding the
mode-select input asserted for 5 consecutive clock ticks brings the
state machine to Test-Logic-Reset; the transition function `tapNext`
depends only on the current state and the mode-select input. -/
theorem c8_tms_five_ticks_resets :
    ∀ s : TapState, tapHold s 5 = TapState.RESET := by
  intro s
  cases s <;> rfl

/-- Claim C10: the register file holds exactly 5 registers while the
LDCS/STCS index is the full 4-bit argument field, so a register exists
for the access exactly when the index is at most 4; every index in
5..15 falls outside the declared register file. -/
theorem c10_register_file_bounds :
    resetState.regs.length = 5 ∧
      ∀ i, i < 16 → ((pdiRegsRead resetState.regs i).isSome ↔ i < 5) := by
  decide

/-- Claim C10 witness: index 7 is representable in the argument field
but addresses no register. -/
theorem c10_register_file_bounds_witness :
    (pdiRegsRead resetState.regs 7).isSome ↔ 7 < 5 :=
  c10_register_file_bounds.2 7 (by decide)

/-! ## Helper states and lemmas for the STCS/LDCS round trip -/

/-- The controller after decoding an STCS opcode byte with register
index `i`: one payload byte still to read. -/
def stcsReadyState (i : Nat) : PDIState :=
  ⟨PdiFsm.IDLE, InsnFsm.IDLE, 192 + i, 6, i, 1, 0, 0, 0,
    false, false, false, 0, true, false, [0, 0, 0, 0, 0]⟩

/-- The controller after the STCS payload byte `v` has been written to
register `i`: back at the opcode-byte boundary. -/
def afterStcsWrite (i v : Nat) : PDIState :=
  ⟨PdiFsm.IDLE, InsnFsm.IDLE, v, 15, i, 0, 0, 0, 0,
    false, false, false, 0, true, false, List.set [0, 0, 0, 0, 0] i v⟩

/-- The controller after decoding an LDCS opcode byte with register
index `i`: one response byte still to produce. -/
def ldcsReadyState (i v : Nat) : PDIState :=
  ⟨PdiFsm.IDLE, InsnFsm.IDLE, 128 + i, 4, i, 0, 1, 0, 0,
    false, false, false, 0, true, false, List.set [0, 0, 0, 0, 0] i v⟩

/-- The controller after the LDCS write phase: register `i` sits on
`dataOut` with `done` set. -/
def c7FinalState (i v : Nat) : PDIState :=
  ⟨PdiFsm.IDLE, InsnFsm.IDLE, 0, 15, i, 0, 0, 0, 0,
    false, false, true, v, true, false, List.set [0, 0, 0, 0, 0] i v⟩
/-- Decoding the STCS opcode byte with register index `i` from the idle controller. -/
theorem processFrame_stcsOpcode (i : Nat) (hi : i < 5) :
    processFrame resetState (goodFrame (192 + i)) = (stcsReadyState i) := by
  have hm1 : (192 + i) % 256 = 192 + i := by omega
  have hm2 : (192 + i) / 32 % 8 = 6 := by omega
  have hm3 : (192 + i) % 16 = i := by omega
  have h1 : step resetState (holdInput (192 + i) (parity8 (192 + i)) true) =
      ⟨PdiFsm.PARITY_CHECK, InsnFsm.IDLE, 0, 15, 0, 0, 0, 0, 0, false, false, false, 0, false, false, [0, 0, 0, 0, 0]⟩ := by
    simp [step, holdInput, decodeCounts, PDIOpcodes.LDS, PDIOpcodes.LD, PDIOpcodes.STS, PDIOpcodes.ST, PDIOpcodes.LDCS, PDIOpcodes.REPEAT, PDIOpcodes.STCS, PDIOpcodes.KEY, PDIOpcodes.IDLE, pdiRegsRead, resetState, stcsReadyState, hm1, hm2, hm3]
  have h2 : step ⟨PdiFsm.PARITY_CHECK, InsnFsm.IDLE, 0, 15, 0, 0, 0, 0, 0, false, false, false, 0, false, false, [0, 0, 0, 0, 0]⟩ (holdInput (192 + i) (parity8 (192 + i)) false) =
      ⟨PdiFsm.DISPATCH_BYTE, InsnFsm.IDLE, 0, 15, 0, 0, 0, 0, 0, true, false, false, 0, false, false, [0, 0, 0, 0, 0]⟩ := by
    simp [step, holdInput, decodeCounts, PDIOpcodes.LDS, PDIOpcodes.LD, PDIOpcodes.STS, PDIOpcodes.ST, PDIOpcodes.LDCS, PDIOpcodes.REPEAT, PDIOpcodes.STCS, PDIOpcodes.KEY, PDIOpcodes.IDLE, pdiRegsRead, resetState, stcsReadyState, hm1, hm2, hm3]
  have h3 : step ⟨PdiFsm.DISPATCH_BYTE, InsnFsm.IDLE, 0, 15, 0, 0, 0, 0, 0, true, false, false, 0, false, false, [0, 0, 0, 0, 0]⟩ (holdInput (192 + i) (parity8 (192 + i)) false) =
      ⟨PdiFsm.DECODE_INSN, InsnFsm.IDLE, 192 + i, 15, 0, 0, 0, 0, 0, true, false, false, 0, false, false, [0, 0, 0, 0, 0]⟩ := by
    simp [step, holdInput, decodeCounts, PDIOpcodes.LDS, PDIOpcodes.LD, PDIOpcodes.STS, PDIOpcodes.ST, PDIOpcodes.LDCS, PDIOpcodes.REPEAT, PDIOpcodes.STCS, PDIOpcodes.KEY, PDIOpcodes.IDLE, pdiRegsRead, resetState, stcsReadyState, hm1, hm2, hm3]
  have h4 : step ⟨PdiFsm.DECODE_INSN, InsnFsm.IDLE, 192 + i, 15, 0, 0, 0, 0, 0, true, false, false, 0, false, false, [0, 0, 0, 0, 0]⟩ (holdInput (192 + i) (parity8 (192 + i)) false) =
      ⟨PdiFsm.IDLE, InsnFsm.DECODE, 192 + i, 6, i, 0, 0, 0, 0, true, false, false, 0, true, false, [0, 0, 0, 0, 0]⟩ := by
    simp [step, holdInput, decodeCounts, PDIOpcodes.LDS, PDIOpcodes.LD, PDIOpcodes.STS, PDIOpcodes.ST, PDIOpcodes.LDCS, PDIOpcodes.REPEAT, PDIOpcodes.STCS, PDIOpcodes.KEY, PDIOpcodes.IDLE, pdiRegsRead, resetState, stcsReadyState, hm1, hm2, hm3]
  have h5 : step ⟨PdiFsm.IDLE, InsnFsm.DECODE, 192 + i, 6, i, 0, 0, 0, 0, true, false, false, 0, true, false, [0, 0, 0, 0, 0]⟩ (holdInput (192 + i) (parity8 (192 + i)) false) =
      ⟨PdiFsm.IDLE, InsnFsm.HANDLE_REPEAT, 192 + i, 6, i, 1, 0, 0, 0, true, false, false, 0, true, true, [0, 0, 0, 0, 0]⟩ := by
    simp [step, holdInput, decodeCounts, PDIOpcodes.LDS, PDIOpcodes.LD, PDIOpcodes.STS, PDIOpcodes.ST, PDIOpcodes.LDCS, PDIOpcodes.REPEAT, PDIOpcodes.STCS, PDIOpcodes.KEY, PDIOpcodes.IDLE, pdiRegsRead, resetState, stcsReadyState, hm1, hm2, hm3]
  have h6 : step ⟨PdiFsm.IDLE, InsnFsm.HANDLE_REPEAT, 192 + i, 6, i, 1, 0, 0, 0, true, false, false, 0, true, true, [0, 0, 0, 0, 0]⟩ (holdInput (192 + i) (parity8 (192 + i)) false) =
      ⟨PdiFsm.IDLE, InsnFsm.IDLE, 192 + i, 6, i, 1, 0, 0, 0, true, false, false, 0, true, true, [0, 0, 0, 0, 0]⟩ := by
    simp [step, holdInput, decodeCounts, PDIOpcodes.LDS, PDIOpcodes.LD, PDIOpcodes.STS, PDIOpcodes.ST, PDIOpcodes.LDCS, PDIOpcodes.REPEAT, PDIOpcodes.STCS, PDIOpcodes.KEY, PDIOpcodes.IDLE, pdiRegsRead, resetState, stcsReadyState, hm1, hm2, hm3]
  have h7 : step ⟨PdiFsm.IDLE, InsnFsm.IDLE, 192 + i, 6, i, 1, 0, 0, 0, true, false, false, 0, true, true, [0, 0, 0, 0, 0]⟩ (holdInput (192 + i) (parity8 (192 + i)) false) =
      (stcsReadyState i) := by
    simp [step, holdInput, decodeCounts, PDIOpcodes.LDS, PDIOpcodes.LD, PDIOpcodes.STS, PDIOpcodes.ST, PDIOpcodes.LDCS, PDIOpcodes.REPEAT, PDIOpcodes.STCS, PDIOpcodes.KEY, PDIOpcodes.IDLE, pdiRegsRead, resetState, stcsReadyState, hm1, hm2, hm3]
  have hstab : step (stcsReadyState i) (holdInput (192 + i) (parity8 (192 + i)) false) =
      (stcsReadyState i) := by
    simp [step, holdInput, decodeCounts, PDIOpcodes.LDS, PDIOpcodes.LD, PDIOpcodes.STS, PDIOpcodes.ST, PDIOpcodes.LDCS, PDIOpcodes.REPEAT, PDIOpcodes.STCS, PDIOpcodes.KEY, PDIOpcodes.IDLE, pdiRegsRead, resetState, stcsReadyState, hm1, hm2, hm3]
  show step (step (step (step (step (step (step (step resetState (holdInput (192 + i) (parity8 (192 + i)) true)) (holdInput (192 + i) (parity8 (192 + i)) false)) (holdInput (192 + i) (parity8 (192 + i)) false)) (holdInput (192 + i) (parity8 (192 + i)) false)) (holdInput (192 + i) (parity8 (192 + i)) false)) (holdInput (192 + i) (parity8 (192 + i)) false)) (holdInput (192 + i) (parity8 (192 + i)) false)) (holdInput (192 + i) (parity8 (192 + i)) false) = (stcsReadyState i)
  rw [h1, h2, h3, h4, h5, h6, h7, hstab]
/-- The STCS payload byte `v` is consumed and written to register `i`. -/
theorem processFrame_stcsData (i v : Nat) (hv : v < 256) :
    processFrame (stcsReadyState i) (goodFrame (v)) = (afterStcsWrite i v) := by
  have hv1 : v % 256 = v := by omega
  have h1 : step (stcsReadyState i) (holdInput (v) (parity8 (v)) true) =
      ⟨PdiFsm.PARITY_CHECK, InsnFsm.IDLE, 192 + i, 6, i, 1, 0, 0, 0, false, false, false, 0, true, false, [0, 0, 0, 0, 0]⟩ := by
    simp [step, holdInput, decodeCounts, PDIOpcodes.LDS, PDIOpcodes.LD, PDIOpcodes.STS, PDIOpcodes.ST, PDIOpcodes.LDCS, PDIOpcodes.REPEAT, PDIOpcodes.STCS, PDIOpcodes.KEY, PDIOpcodes.IDLE, pdiRegsRead, stcsReadyState, afterStcsWrite, hv1]
  have h2 : step ⟨PdiFsm.PARITY_CHECK, InsnFsm.IDLE, 192 + i, 6, i, 1, 0, 0, 0, false, false, false, 0, true, false, [0, 0, 0, 0, 0]⟩ (holdInput (v) (parity8 (v)) false) =
      ⟨PdiFsm.DISPATCH_BYTE, InsnFsm.IDLE, 192 + i, 6, i, 1, 0, 0, 0, true, false, false, 0, true, false, [0, 0, 0, 0, 0]⟩ := by
    simp [step, holdInput, decodeCounts, PDIOpcodes.LDS, PDIOpcodes.LD, PDIOpcodes.STS, PDIOpcodes.ST, PDIOpcodes.LDCS, PDIOpcodes.REPEAT, PDIOpcodes.STCS, PDIOpcodes.KEY, PDIOpcodes.IDLE, pdiRegsRead, stcsReadyState, afterStcsWrite, hv1]
  have h3 : step ⟨PdiFsm.DISPATCH_BYTE, InsnFsm.IDLE, 192 + i, 6, i, 1, 0, 0, 0, true, false, false, 0, true, false, [0, 0, 0, 0, 0]⟩ (holdInput (v) (parity8 (v)) false) =
      ⟨PdiFsm.HANDLE_READ, InsnFsm.IDLE, v, 6, i, 1, 0, 0, 0, true, false, false, 0, true, false, [0, 0, 0, 0, 0]⟩ := by
    simp [step, holdInput, decodeCounts, PDIOpcodes.LDS, PDIOpcodes.LD, PDIOpcodes.STS, PDIOpcodes.ST, PDIOpcodes.LDCS, PDIOpcodes.REPEAT, PDIOpcodes.STCS, PDIOpcodes.KEY, PDIOpcodes.IDLE, pdiRegsRead, stcsReadyState, afterStcsWrite, hv1]
  have h4 : step ⟨PdiFsm.HANDLE_READ, InsnFsm.IDLE, v, 6, i, 1, 0, 0, 0, true, false, false, 0, true, false, [0, 0, 0, 0, 0]⟩ (holdInput (v) (parity8 (v)) false) =
      ⟨PdiFsm.UPDATE_STATE, InsnFsm.IDLE, v, 6, i, 0, 0, 0, 0, true, false, false, 0, true, false, List.set [0, 0, 0, 0, 0] i v⟩ := by
    simp [step, holdInput, decodeCounts, PDIOpcodes.LDS, PDIOpcodes.LD, PDIOpcodes.STS, PDIOpcodes.ST, PDIOpcodes.LDCS, PDIOpcodes.REPEAT, PDIOpcodes.STCS, PDIOpcodes.KEY, PDIOpcodes.IDLE, pdiRegsRead, stcsReadyState, afterStcsWrite, hv1]
  have h5 : step ⟨PdiFsm.UPDATE_STATE, InsnFsm.IDLE, v, 6, i, 0, 0, 0, 0, true, false, false, 0, true, false, List.set [0, 0, 0, 0, 0] i v⟩ (holdInput (v) (parity8 (v)) false) =
      (afterStcsWrite i v) := by
    simp [step, holdInput, decodeCounts, PDIOpcodes.LDS, PDIOpcodes.LD, PDIOpcodes.STS, PDIOpcodes.ST, PDIOpcodes.LDCS, PDIOpcodes.REPEAT, PDIOpcodes.STCS, PDIOpcodes.KEY, PDIOpcodes.IDLE, pdiRegsRead, stcsReadyState, afterStcsWrite, hv1]
  have hstab : step (afterStcsWrite i v) (holdInput (v) (parity8 (v)) false) =
      (afterStcsWrite i v) := by
    simp [step, holdInput, decodeCounts, PDIOpcodes.LDS, PDIOpcodes.LD, PDIOpcodes.STS, PDIOpcodes.ST, PDIOpcodes.LDCS, PDIOpcodes.REPEAT, PDIOpcodes.STCS, PDIOpcodes.KEY, PDIOpcodes.IDLE, pdiRegsRead, stcsReadyState, afterStcsWrite, hv1]
  show step (step (step (step (step (step (step (step (stcsReadyState i) (holdInput (v) (parity8 (v)) true)) (holdInput (v) (parity8 (v)) false)) (holdInput (v) (parity8 (v)) false)) (holdInput (v) (parity8 (v)) false)) (holdInput (v) (parity8 (v)) false)) (holdInput (v) (parity8 (v)) false)) (holdInput (v) (parity8 (v)) false)) (holdInput (v) (parity8 (v)) false) = (afterStcsWrite i v)
  rw [h1, h2, h3, h4, h5, hstab, hstab, hstab]
/-- Decoding the LDCS opcode byte with register index `i` after the STCS write. -/
theorem processFrame_ldcsOpcode (i v : Nat) (hi : i < 5) :
    processFrame (afterStcsWrite i v) (goodFrame (128 + i)) = (ldcsReadyState i v) := by
  have hm1 : (128 + i) % 256 = 128 + i := by omega
  have hm2 : (128 + i) / 32 % 8 = 4 := by omega
  have hm3 : (128 + i) % 16 = i := by omega
  have h1 : step (afterStcsWrite i v) (holdInput (128 + i) (parity8 (128 + i)) true) =
      ⟨PdiFsm.PARITY_CHECK, InsnFsm.IDLE, v, 15, i, 0, 0, 0, 0, false, false, false, 0, true, false, List.set [0, 0, 0, 0, 0] i v⟩ := by
    simp [step, holdInput, decodeCounts, PDIOpcodes.LDS, PDIOpcodes.LD, PDIOpcodes.STS, PDIOpcodes.ST, PDIOpcodes.LDCS, PDIOpcodes.REPEAT, PDIOpcodes.STCS, PDIOpcodes.KEY, PDIOpcodes.IDLE, pdiRegsRead, afterStcsWrite, ldcsReadyState, hm1, hm2, hm3]
  have h2 : step ⟨PdiFsm.PARITY_CHECK, InsnFsm.IDLE, v, 15, i, 0, 0, 0, 0, false, false, false, 0, true, false, List.set [0, 0, 0, 0, 0] i v⟩ (holdInput (128 + i) (parity8 (128 + i)) false) =
      ⟨PdiFsm.DISPATCH_BYTE, InsnFsm.IDLE, v, 15, i, 0, 0, 0, 0, true, false, false, 0, true, false, List.set [0, 0, 0, 0, 0] i v⟩ := by
    simp [step, holdInput, decodeCounts, PDIOpcodes.LDS, PDIOpcodes.LD, PDIOpcodes.STS, PDIOpcodes.ST, PDIOpcodes.LDCS, PDIOpcodes.REPEAT, PDIOpcodes.STCS, PDIOpcodes.KEY, PDIOpcodes.IDLE, pdiRegsRead, afterStcsWrite, ldcsReadyState, hm1, hm2, hm3]
  have h3 : step ⟨PdiFsm.DISPATCH_BYTE, InsnFsm.IDLE, v, 15, i, 0, 0, 0, 0, true, false, false, 0, true, false, List.set [0, 0, 0, 0, 0] i v⟩ (holdInput (128 + i) (parity8 (128 + i)) false) =
      ⟨PdiFsm.DECODE_INSN, InsnFsm.IDLE, 128 + i, 15, i, 0, 0, 0, 0, true, false, false, 0, true, false, List.set [0, 0, 0, 0, 0] i v⟩ := by
    simp [step, holdInput, decodeCounts, PDIOpcodes.LDS, PDIOpcodes.LD, PDIOpcodes.STS, PDIOpcodes.ST, PDIOpcodes.LDCS, PDIOpcodes.REPEAT, PDIOpcodes.STCS, PDIOpcodes.KEY, PDIOpcodes.IDLE, pdiRegsRead, afterStcsWrite, ldcsReadyState, hm1, hm2, hm3]
  have h4 : step ⟨PdiFsm.DECODE_INSN, InsnFsm.IDLE, 128 + i, 15, i, 0, 0, 0, 0, true, false, false, 0, true, false, List.set [0, 0, 0, 0, 0] i v⟩ (holdInput (128 + i) (parity8 (128 + i)) false) =
      ⟨PdiFsm.IDLE, InsnFsm.DECODE, 128 + i, 4, i, 0, 0, 0, 0, true, false, false, 0, true, false, List.set [0, 0, 0, 0, 0] i v⟩ := by
    simp [step, holdInput, decodeCounts, PDIOpcodes.LDS, PDIOpcodes.LD, PDIOpcodes.STS, PDIOpcodes.ST, PDIOpcodes.LDCS, PDIOpcodes.REPEAT, PDIOpcodes.STCS, PDIOpcodes.KEY, PDIOpcodes.IDLE, pdiRegsRead, afterStcsWrite, ldcsReadyState, hm1, hm2, hm3]
  have h5 : step ⟨PdiFsm.IDLE, InsnFsm.DECODE, 128 + i, 4, i, 0, 0, 0, 0, true, false, false, 0, true, false, List.set [0, 0, 0, 0, 0] i v⟩ (holdInput (128 + i) (parity8 (128 + i)) false) =
      ⟨PdiFsm.IDLE, InsnFsm.HANDLE_REPEAT, 128 + i, 4, i, 0, 1, 0, 0, true, false, false, 0, true, true, List.set [0, 0, 0, 0, 0] i v⟩ := by
    simp [step, holdInput, decodeCounts, PDIOpcodes.LDS, PDIOpcodes.LD, PDIOpcodes.STS, PDIOpcodes.ST, PDIOpcodes.LDCS, PDIOpcodes.REPEAT, PDIOpcodes.STCS, PDIOpcodes.KEY, PDIOpcodes.IDLE, pdiRegsRead, afterStcsWrite, ldcsReadyState, hm1, hm2, hm3]
  have h6 : step ⟨PdiFsm.IDLE, InsnFsm.HANDLE_REPEAT, 128 + i, 4, i, 0, 1, 0, 0, true, false, false, 0, true, true, List.set [0, 0, 0, 0, 0] i v⟩ (holdInput (128 + i) (parity8 (128 + i)) false) =
      ⟨PdiFsm.IDLE, InsnFsm.IDLE, 128 + i, 4, i, 0, 1, 0, 0, true, false, false, 0, true, true, List.set [0, 0, 0, 0, 0] i v⟩ := by
    simp [step, holdInput, decodeCounts, PDIOpcodes.LDS, PDIOpcodes.LD, PDIOpcodes.STS, PDIOpcodes.ST, PDIOpcodes.LDCS, PDIOpcodes.REPEAT, PDIOpcodes.STCS, PDIOpcodes.KEY, PDIOpcodes.IDLE, pdiRegsRead, afterStcsWrite, ldcsReadyState, hm1, hm2, hm3]
  have h7 : step ⟨PdiFsm.IDLE, InsnFsm.IDLE, 128 + i, 4, i, 0, 1, 0, 0, true, false, false, 0, true, true, List.set [0, 0, 0, 0, 0] i v⟩ (holdInput (128 + i) (parity8 (128 + i)) false) =
      (ldcsReadyState i v) := by
    simp [step, holdInput, decodeCounts, PDIOpcodes.LDS, PDIOpcodes.LD, PDIOpcodes.STS, PDIOpcodes.ST, PDIOpcodes.LDCS, PDIOpcodes.REPEAT, PDIOpcodes.STCS, PDIOpcodes.KEY, PDIOpcodes.IDLE, pdiRegsRead, afterStcsWrite, ldcsReadyState, hm1, hm2, hm3]
  have hstab : step (ldcsReadyState i v) (holdInput (128 + i) (parity8 (128 + i)) false) =
      (ldcsReadyState i v) := by
    simp [step, holdInput, decodeCounts, PDIOpcodes.LDS, PDIOpcodes.LD, PDIOpcodes.STS, PDIOpcodes.ST, PDIOpcodes.LDCS, PDIOpcodes.REPEAT, PDIOpcodes.STCS, PDIOpcodes.KEY, PDIOpcodes.IDLE, pdiRegsRead, afterStcsWrite, ldcsReadyState, hm1, hm2, hm3]
  show step (step (step (step (step (step (step (step (afterStcsWrite i v) (holdInput (128 + i) (parity8 (128 + i)) true)) (holdInput (128 + i) (parity8 (128 + i)) false)) (holdInput (128 + i) (parity8 (128 + i)) false)) (holdInput (128 + i) (parity8 (128 + i)) false)) (holdInput (128 + i) (parity8 (128 + i)) false)) (holdInput (128 + i) (parity8 (128 + i)) false)) (holdInput (128 + i) (parity8 (128 + i)) false)) (holdInput (128 + i) (parity8 (128 + i)) false) = (ldcsReadyState i v)
  rw [h1, h2, h3, h4, h5, h6, h7, hstab]
/-- Polling with a dummy byte: the LDCS write phase places register `i` on `dataOut` and raises `done`. -/
theorem processFrame_ldcsPoll (i v : Nat) (hi : i < 5) :
    processFrame (ldcsReadyState i v) (goodFrame (0)) = (c7FinalState i v) := by
  have hreg : (List.set [0, 0, 0, 0, 0] i v)[i]?.getD 0 = v := by
    interval_cases i <;> simp
  have h1 : step (ldcsReadyState i v) (holdInput (0) (parity8 (0)) true) =
      ⟨PdiFsm.PARITY_CHECK, InsnFsm.IDLE, 128 + i, 4, i, 0, 1, 0, 0, false, false, false, 0, true, false, List.set [0, 0, 0, 0, 0] i v⟩ := by
    simp [step, holdInput, decodeCounts, PDIOpcodes.LDS, PDIOpcodes.LD, PDIOpcodes.STS, PDIOpcodes.ST, PDIOpcodes.LDCS, PDIOpcodes.REPEAT, PDIOpcodes.STCS, PDIOpcodes.KEY, PDIOpcodes.IDLE, pdiRegsRead, ldcsReadyState, c7FinalState, hreg]
  have h2 : step ⟨PdiFsm.PARITY_CHECK, InsnFsm.IDLE, 128 + i, 4, i, 0, 1, 0, 0, false, false, false, 0, true, false, List.set [0, 0, 0, 0, 0] i v⟩ (holdInput (0) (parity8 (0)) false) =
      ⟨PdiFsm.DISPATCH_BYTE, InsnFsm.IDLE, 128 + i, 4, i, 0, 1, 0, 0, true, false, false, 0, true, false, List.set [0, 0, 0, 0, 0] i v⟩ := by
    simp [step, holdInput, decodeCounts, PDIOpcodes.LDS, PDIOpcodes.LD, PDIOpcodes.STS, PDIOpcodes.ST, PDIOpcodes.LDCS, PDIOpcodes.REPEAT, PDIOpcodes.STCS, PDIOpcodes.KEY, PDIOpcodes.IDLE, pdiRegsRead, ldcsReadyState, c7FinalState, hreg]
  have h3 : step ⟨PdiFsm.DISPATCH_BYTE, InsnFsm.IDLE, 128 + i, 4, i, 0, 1, 0, 0, true, false, false, 0, true, false, List.set [0, 0, 0, 0, 0] i v⟩ (holdInput (0) (parity8 (0)) false) =
      ⟨PdiFsm.HANDLE_WRITE, InsnFsm.IDLE, 0, 4, i, 0, 1, 0, 0, true, false, false, 0, true, false, List.set [0, 0, 0, 0, 0] i v⟩ := by
    simp [step, holdInput, decodeCounts, PDIOpcodes.LDS, PDIOpcodes.LD, PDIOpcodes.STS, PDIOpcodes.ST, PDIOpcodes.LDCS, PDIOpcodes.REPEAT, PDIOpcodes.STCS, PDIOpcodes.KEY, PDIOpcodes.IDLE, pdiRegsRead, ldcsReadyState, c7FinalState, hreg]
  have h4 : step ⟨PdiFsm.HANDLE_WRITE, InsnFsm.IDLE, 0, 4, i, 0, 1, 0, 0, true, false, false, 0, true, false, List.set [0, 0, 0, 0, 0] i v⟩ (holdInput (0) (parity8 (0)) false) =
      ⟨PdiFsm.UPDATE_STATE, InsnFsm.IDLE, 0, 4, i, 0, 0, 0, 0, true, false, true, v, true, false, List.set [0, 0, 0, 0, 0] i v⟩ := by
    simp [step, holdInput, decodeCounts, PDIOpcodes.LDS, PDIOpcodes.LD, PDIOpcodes.STS, PDIOpcodes.ST, PDIOpcodes.LDCS, PDIOpcodes.REPEAT, PDIOpcodes.STCS, PDIOpcodes.KEY, PDIOpcodes.IDLE, pdiRegsRead, ldcsReadyState, c7FinalState, hreg]
  have h5 : step ⟨PdiFsm.UPDATE_STATE, InsnFsm.IDLE, 0, 4, i, 0, 0, 0, 0, true, false, true, v, true, false, List.set [0, 0, 0, 0, 0] i v⟩ (holdInput (0) (parity8 (0)) false) =
      (c7FinalState i v) := by
    simp [step, holdInput, decodeCounts, PDIOpcodes.LDS, PDIOpcodes.LD, PDIOpcodes.STS, PDIOpcodes.ST, PDIOpcodes.LDCS, PDIOpcodes.REPEAT, PDIOpcodes.STCS, PDIOpcodes.KEY, PDIOpcodes.IDLE, pdiRegsRead, ldcsReadyState, c7FinalState, hreg]
  have hstab : step (c7FinalState i v) (holdInput (0) (parity8 (0)) false) =
      (c7FinalState i v) := by
    simp [step, holdInput, decodeCounts, PDIOpcodes.LDS, PDIOpcodes.LD, PDIOpcodes.STS, PDIOpcodes.ST, PDIOpcodes.LDCS, PDIOpcodes.REPEAT, PDIOpcodes.STCS, PDIOpcodes.KEY, PDIOpcodes.IDLE, pdiRegsRead, ldcsReadyState, c7FinalState, hreg]
  show step (step (step (step (step (step (step (step (ldcsReadyState i v) (holdInput (0) (parity8 (0)) true)) (holdInput (0) (parity8 (0)) false)) (holdInput (0) (parity8 (0)) false)) (holdInput (0) (parity8 (0)) false)) (holdInput (0) (parity8 (0)) false)) (holdInput (0) (parity8 (0)) false)) (holdInput (0) (parity8 (0)) false)) (holdInput (0) (parity8 (0)) false) = (c7FinalState i v)
  rw [h1, h2, h3, h4, h5, hstab, hstab, hstab]

/-- The controller three cycles after a frame `(b, pb)` arrives with a
`nextReady` pulse while the transport FSM idles: IDLE, PARITY-CHECK and
DISPATCH-BYTE have run. -/
def afterDispatch (s : PDIState) (b : Nat) (pb : Bool) : PDIState :=
  step (step (step s (holdInput b pb true)) (holdInput b pb false))
    (holdInput b pb false)

/-- Claim C7: a value `v` written to register `i` by a completed STCS
command is returned exactly by a following LDCS command with the same
index: at the end of the LDCS HANDLE-WRITE phase the outbound data path
carries `v` and `done` is raised. -/
theorem c7_stcs_ldcs_roundtrip (i v : Nat) (hi : i < 5) (hv : v < 256) :
    (processFrames resetState
        [goodFrame (192 + i), goodFrame v, goodFrame (128 + i),
          goodFrame 0]).dataOut = v ∧
      (processFrames resetState
        [goodFrame (192 + i), goodFrame v, goodFrame (128 + i),
          goodFrame 0]).done = true := by
  have h : processFrames resetState
      [goodFrame (192 + i), goodFrame v, goodFrame (128 + i), goodFrame 0] =
      c7FinalState i v := by
    show processFrame (processFrame (processFrame (processFrame resetState
      (goodFrame (192 + i))) (goodFrame v)) (goodFrame (128 + i)))
      (goodFrame 0) = c7FinalState i v
    rw [processFrame_stcsOpcode i hi, processFrame_stcsData i v hv,
      processFrame_ldcsOpcode i v hi, processFrame_ldcsPoll i v hi]
  rw [h]
  exact ⟨rfl, rfl⟩

/-- Claim C7 witness: register 3, value 0xab. -/
theorem c7_stcs_ldcs_roundtrip_witness :
    (processFrames resetState
        [goodFrame (192 + 3), goodFrame 0xab, goodFrame (128 + 3),
          goodFrame 0]).dataOut = 0xab :=
  (c7_stcs_ldcs_roundtrip 3 0xab (by decide) (by decide)).1

/-- Claim C3: a frame whose parity bit disagrees with the even parity
of its data bits makes the transport FSM abort in DISPATCH-BYTE back to
IDLE with `busy` cleared, the byte not latched into `data`, and
`opcode`, `readCount`, `writeCount`, `repCount` and the register file
untouched; the parity-error flag is raised, so the interface answers
the next fetch-response poll with the BREAK byte. -/
theorem c3_parity_error_aborts (s : PDIState) (b : Nat) (pb : Bool)
    (hpdi : s.pdi = PdiFsm.IDLE)
    (hinsn : s.insn = InsnFsm.IDLE ∨ s.insn = InsnFsm.CAPTURE_REPEAT)
    (hbad : parity8 (b % 256) ≠ pb) :
    ((afterDispatch s b pb).pdi = PdiFsm.IDLE ∧
      (afterDispatch s b pb).busy = false ∧
      (afterDispatch s b pb).parityError = true ∧
      (afterDispatch s b pb).data = s.data ∧
      (afterDispatch s b pb).opcode = s.opcode ∧
      (afterDispatch s b pb).readCount = s.readCount ∧
      (afterDispatch s b pb).writeCount = s.writeCount ∧
      (afterDispatch s b pb).repCount = s.repCount ∧
      (afterDispatch s b pb).regs = s.regs) ∧
      ∀ ist : IfaceState, ∀ inp : IfaceInput,
        inp.needsResponse = true → inp.parityError = true →
          (ifaceRespond ist inp).1 = PDI_BREAK_BYTE := by
  constructor
  · have hpe : (parity8 (b % 256) != pb) = true := by
      cases hq : parity8 (b % 256) <;> cases pb <;> simp_all
    obtain ⟨pdi, insn, data, opcode, args, rc, wc, rep, rd,
      busy, pe0, dne, dOut, ncm, uwo, regs⟩ := s
    simp only at hpdi hinsn
    subst hpdi
    rcases hinsn with h | h <;> subst h <;> cases uwo <;>
      simp [afterDispatch, step, holdInput, decodeCounts, hpe,
        PDIOpcodes.LDS, PDIOpcodes.LD, PDIOpcodes.STS, PDIOpcodes.ST,
        PDIOpcodes.LDCS, PDIOpcodes.REPEAT, PDIOpcodes.STCS,
        PDIOpcodes.KEY, PDIOpcodes.IDLE]
  · intro ist inp h1 h2
    simp [ifaceRespond, h1, h2]

/-- Claim C3 witness: a mid-command state (STCS half-way, one byte
outstanding) hit by the frame `0x00` with parity bit wrongly set. -/
theorem c3_parity_error_aborts_witness :
    (afterDispatch (stcsReadyState 0) 0 true).opcode = (stcsReadyState 0).opcode ∧
      (afterDispatch (stcsReadyState 0) 0 true).busy = false :=
  ⟨((c3_parity_error_aborts (stcsReadyState 0) 0 true rfl (Or.inl rfl)
      (by decide)).1.2.2.2.2.1),
    ((c3_parity_error_aborts (stcsReadyState 0) 0 true rfl (Or.inl rfl)
      (by decide)).1.2.1)⟩

/-- Claim C4: on a fetch-response pulse the interface emits exactly one
of four codes in priority order — BREAK on a flagged parity error, else
DELAY while busy, else the synchronized response payload (data byte
plus recomputed even parity) with the done-acknowledge pulse raised,
else EMPTY — and a done-acknowledge pulse into the core domain clears
the controller's `done` flag. -/
theorem c4_response_selection :
    (∀ st : IfaceState, ∀ i : IfaceInput, i.needsResponse = true →
      (i.parityError = true → ifaceRespond st i = (PDI_BREAK_BYTE, false)) ∧
      (i.parityError = false → st.busy = true →
        ifaceRespond st i = (PDI_DELAY_BYTE, false)) ∧
      (i.parityError = false → st.busy = false → i.haveResponse = true →
        ∀ d, i.jtagResponse = mkPdiResponse d →
          ifaceRespond st i = (mkPdiResponse d, true)) ∧
      (i.parityError = false → st.busy = false → i.haveResponse = false →
        ifaceRespond st i = (PDI_EMPTY_BYTE, false))) ∧
      ∀ cs : PDIState, ∀ ci : PDIInput, ci.doneAck = true →
        (step cs ci).done = false := by
  constructor
  · intro st i hn
    refine ⟨fun hp => ?_, fun hp hb => ?_, fun hp hb hr d hd => ?_,
      fun hp hb hr => ?_⟩ <;> simp [ifaceRespond, hn, hp, *]
  · intro cs ci h
    simp [step, h]

/-- Claim C4 witness: the BREAK branch at a concrete state and input,
and the done-clear at a concrete controller state. -/
theorem c4_response_selection_witness :
    ifaceRespond ⟨false, false, false⟩ ⟨true, false, false, true, false, 0⟩ =
        (PDI_BREAK_BYTE, false) ∧
      (step resetState ⟨0, false, false, true⟩).done = false :=
  ⟨(c4_response_selection.1 ⟨false, false, false⟩
      ⟨true, false, false, true, false, 0⟩ rfl).1 rfl,
    c4_response_selection.2 resetState ⟨0, false, false, true⟩ rfl⟩

/-- Claim C6, counterexample: the forwarding gate is `useRequest`, the
busy shadow as sampled at the most recent fetch-response pulse — not
the shadow at the moment the request pulse arrives.  Sample the shadow
low at a poll, then raise the shadow and deliver a request pulse: the
pulse arrives while the busy shadow is asserted, yet `nextReady` is
raised and the request is forwarded. -/
theorem c6_counterexample :
    (⟨false, true, true, false, false, 0⟩ : IfaceInput).awaitingResponse = true ∧
      ifaceNextReady
        (ifaceStep ⟨false, false, false⟩ ⟨true, false, false, false, false, 0⟩)
        ⟨false, true, true, false, false, 0⟩ = true := by
  decide

/-- Claim C6 (amended): a request-available pulse is forwarded into the
core domain when and only when `useRequest` is set, i.e. exactly when
the busy shadow was deasserted at the most recent fetch-response pulse;
a poll that samples the shadow asserted clears `useRequest`, and while
`useRequest` is clear every arriving request pulse is dropped.  The
shadow's value at the instant the request pulse itself arrives does not
enter the gate. -/
theorem c6_busy_gate_uses_latched_shadow :
    ∀ (st : IfaceState) (i : IfaceInput),
      (ifaceNextReady st i = (st.useRequest && i.hasRequest)) ∧
      (st.useRequest = false → ifaceNextReady st i = false) ∧
      (ifaceNextReady st i = true → st.useRequest = true ∧ i.hasRequest = true) ∧
      (i.needsResponse = true → i.awaitingResponse = true →
        (ifaceStep st i).useRequest = false) ∧
      (i.needsResponse = true → i.awaitingResponse = false →
        (ifaceStep st i).useRequest = true) := by
  intro st i
  refine ⟨rfl, fun h => ?_, fun h => ?_, fun h1 h2 => ?_, fun h1 h2 => ?_⟩ <;>
    simp_all [ifaceNextReady, ifaceStep]

/-- Claim C6 witness: the amended gate at a concrete state and input
with `useRequest` clear. -/
theorem c6_busy_gate_uses_latched_shadow_witness :
    ifaceNextReady ⟨false, false, false⟩ ⟨false, true, true, false, false, 0⟩ =
      false :=
  (c6_busy_gate_uses_latched_shadow ⟨false, false, false⟩
    ⟨false, true, true, false, false, 0⟩).2.1 rfl

/-! ## PulseSynchroniser lemmas -/

/-- At most one new pulse is counted per input tick. -/
theorem cntPulses_succ_le (p : Nat → Bool) (n : Nat) :
    cntPulses p (n + 1) ≤ cntPulses p n + 1 := by
  show cntPulses p n + (if p n then 1 else 0) ≤ cntPulses p n + 1
  split <;> omega

/-- The pulse count is monotone in the tick index. -/
theorem cntPulses_mono (p : Nat → Bool) {a b : Nat} (h : a ≤ b) :
    cntPulses p a ≤ cntPulses p b := by
  induction h with
  | refl => exact Nat.le_refl _
  | step _ ih =>
    refine Nat.le_trans ih ?_
    show cntPulses p _ ≤ cntPulses p _ + (if p _ then 1 else 0)
    split <;> omega

/-- The input-domain toggle register equals the parity of the number of
pulses seen so far. -/
theorem toggleSeq_parity (p : Nat → Bool) :
    ∀ n, toggleSeq p n = decide (cntPulses p n % 2 = 1) := by
  intro n
  induction n with
  | zero => rfl
  | succ n ih =>
    show Bool.xor (toggleSeq p n) (p n) = _
    cases hp : p n
    · simp [cntPulses, hp, ih]
    · simp only [cntPulses, hp, ih, Bool.xor_true, if_true]
      rcases Nat.mod_two_eq_zero_or_one (cntPulses p n) with h | h
      · have h1 : (cntPulses p n + 1) % 2 = 1 := by omega
        simp [h, h1]
      · have h1 : (cntPulses p n + 1) % 2 = 0 := by omega
        simp [h, h1]

/-- No output pulse can appear while the toggle is still crossing the
synchronizer chain. -/
theorem outPulse_early (stages : Nat) (σ : Nat → Nat) (p : Nat → Bool)
    (hst : 1 ≤ stages) (hσ0 : σ 0 = 0) :
    ∀ j, j ≤ stages → outPulse stages σ p j = false := by
  intro j hj
  match j, hj with
  | 0, _ =>
    show syncToggle stages σ p 0 = false
    simp [syncToggle, show 0 < stages from hst]
  | k + 1, hj =>
    show Bool.xor (syncToggle stages σ p (k + 1)) (syncToggle stages σ p k) = false
    have hk : syncToggle stages σ p k = false := by
      simp [syncToggle, show k < stages from by omega]
    rcases Nat.lt_or_ge (k + 1) stages with h | h
    · have h1 : syncToggle stages σ p (k + 1) = false := by
        simp [syncToggle, h]
      rw [h1, hk]
      rfl
    · have he : k + 1 = stages := by omega
      have h1 : syncToggle stages σ p (k + 1) = false := by
        simp [syncToggle, he, hσ0, toggleSeq]
      rw [h1, hk]
      rfl

/-- The output pulse count stays zero through the synchronizer's
start-up window. -/
theorem cntOut_early (stages : Nat) (σ : Nat → Nat) (p : Nat → Bool)
    (hst : 1 ≤ stages) (hσ0 : σ 0 = 0) :
    ∀ n, n ≤ stages + 1 → cntOut stages σ p n = 0 := by
  intro n hn
  induction n with
  | zero => rfl
  | succ n ih =>
    show cntOut stages σ p n + (if outPulse stages σ p n then 1 else 0) = 0
    rw [outPulse_early stages σ p hst hσ0 n (by omega), ih (by omega)]
    rfl

/-- Claim C9: under the documented rate constraint — between any two
consecutive output-domain samples of the input toggle, at most one
input pulse occurs — the PulseSynchroniser regenerates exactly one
single-cycle output pulse per input pulse: after the `stages`-deep
start-up window, the number of output pulses emitted equals the number
of input pulses sampled (no duplication and no loss over every
prefix), and an output pulse appears at a tick exactly when its
sampling window contains exactly one input pulse. -/
theorem c9_pulse_synchroniser_exact (stages : Nat) (σ : Nat → Nat)
    (p : Nat → Bool) (hst : 1 ≤ stages) (hσ0 : σ 0 = 0) (hmono : Monotone σ)
    (hrate : ∀ j, cntPulses p (σ (j + 1)) ≤ cntPulses p (σ j) + 1) :
    ∀ J, cntOut stages σ p (J + stages + 1) = cntPulses p (σ J) ∧
      (outPulse stages σ p (J + stages + 1) = true ↔
        cntPulses p (σ (J + 1)) = cntPulses p (σ J) + 1) := by
  have hedge : ∀ J, outPulse stages σ p (J + stages + 1) = true ↔
      cntPulses p (σ (J + 1)) = cntPulses p (σ J) + 1 := by
    intro J
    have hxy : cntPulses p (σ J) ≤ cntPulses p (σ (J + 1)) :=
      cntPulses_mono p (hmono (Nat.le_succ J))
    have hy := hrate J
    have e1 : syncToggle stages σ p (J + stages + 1) = toggleSeq p (σ (J + 1)) := by
      simp [syncToggle, show ¬(J + stages + 1 < stages) from by omega,
        show J + stages + 1 - stages = J + 1 from by omega]
    have e2 : syncToggle stages σ p (J + stages) = toggleSeq p (σ J) := by
      simp [syncToggle, show ¬(J + stages < stages) from by omega,
        show J + stages - stages = J from by omega]
    show Bool.xor (syncToggle stages σ p (J + stages + 1))
        (syncToggle stages σ p (J + stages)) = true ↔ _
    rw [e1, e2, toggleSeq_parity, toggleSeq_parity]
    rcases (show cntPulses p (σ (J + 1)) = cntPulses p (σ J) ∨
        cntPulses p (σ (J + 1)) = cntPulses p (σ J) + 1 from by omega) with h | h
    · rw [h]
      simp only [Bool.xor_self]
      constructor
      · intro hc; exact absurd hc (by simp)
      · intro hc; omega
    · rw [h]
      simp only [iff_true_intro rfl, iff_true]
      rcases Nat.mod_two_eq_zero_or_one (cntPulses p (σ J)) with hm | hm
      · have hm1 : (cntPulses p (σ J) + 1) % 2 = 1 := by omega
        simp [hm, hm1]
      · have hm1 : (cntPulses p (σ J) + 1) % 2 = 0 := by omega
        simp [hm, hm1]
  intro J
  refine ⟨?_, hedge J⟩
  induction J with
  | zero =>
    rw [Nat.zero_add, hσ0]
    exact cntOut_early stages σ p hst hσ0 (stages + 1) (Nat.le_refl _)
  | succ J ih =>
    rw [show J + 1 + stages + 1 = J + stages + 1 + 1 from by omega]
    show cntOut stages σ p (J + stages + 1) +
        (if outPulse stages σ p (J + stages + 1) then 1 else 0) =
      cntPulses p (σ (J + 1))
    rw [ih]
    have hxy : cntPulses p (σ J) ≤ cntPulses p (σ (J + 1)) :=
      cntPulses_mono p (hmono (Nat.le_succ J))
    have hy := hrate J
    cases hob : outPulse stages σ p (J + stages + 1)
    · have hne : ¬(cntPulses p (σ (J + 1)) = cntPulses p (σ J) + 1) := by
        intro hc
        have hcontra := (hedge J).mpr hc
        rw [hob] at hcontra
        exact Bool.false_ne_true hcontra
      simp
      omega
    · have hc := (hedge J).mp hob
      simp
      omega

/-- Claim C9 witness: two synchronizer stages, identical clocks
(identity sampling map), a single pulse at input tick 0. -/
theorem c9_pulse_synchroniser_exact_witness :
    cntOut 2 (fun j => j) (fun n => decide (n = 0)) 6 =
      cntPulses (fun n => decide (n = 0)) 3 :=
  (c9_pulse_synchroniser_exact 2 (fun j => j) (fun n => decide (n = 0))
    (by decide) rfl (fun _ _ h => h)
    (fun j => cntPulses_succ_le (fun n => decide (n = 0)) j) 3).1
